import Mathlib

/-!
# Verification of the OpenGL deferred texture creation / eviction subsystem

Shallow embedding of the eviction-related parts of
`Engine/Source/RunTime/OpenGLDrv/Private/OpenGLTexture.cpp`:
the CPU-side shadow mip store (`FTextureEvictionParams`), the eligibility
predicates (`CanCreateAsEvicted`, `CanBeEvicted`), the LRU registry
(`FTextureEvictionLRU`) with its per-frame eviction tick, and the texture
lifecycle operations (`Lock`/`Unlock`, `RestoreEvictedGLResource`,
`TryEvictGLResource`).

Modelling conventions:
* machine integers are `Nat`; 32-bit wraparound is written explicitly as
  `% 2^32` at the one place the source can overflow (the eviction-age test);
* byte buffers are `List (Option Nat)`; a `none` byte is memory that was
  allocated (`SetNumUninitialized`) but never written;
* fatal assertions (`check`, `checkf`, `checkNoEntry`, null dereference,
  `TArray` bounds) are modelled as `Except.error` (debug-build semantics:
  a failing check aborts before any further state change);
* `ensure` is non-fatal in the engine (it logs and continues) and is
  therefore modelled as a no-op;
* the model is restricted to the 2D texture path (`ArrayIndex = 0`,
  `bCubemap = false`, effective depth 1): the eviction subsystem only ever
  engages for `GL_TEXTURE_2D` targets (`CanCreateAsEvicted`);
* telemetry counters (`GTotalEvictedMipMemStored`, ...) and debug labels are
  omitted: they do not feed back into control flow.
-/

namespace GLTex

/-- A CPU byte buffer. `none` entries are allocated-but-uninitialized bytes. -/
abbrev Buf : Type := List (Option Nat)

/-- Decidable equality on `Except`, so that runs of the fallible operations can
be compared to expected results by `decide`. -/
instance instDecidableEqExcept {ε α : Type} [DecidableEq ε] [DecidableEq α] :
    DecidableEq (Except ε α)
  | .error e, .error f =>
    if h : e = f then .isTrue (by rw [h]) else .isFalse (by intro hc; cases hc; exact h rfl)
  | .error _, .ok _ => .isFalse (by intro hc; cases hc)
  | .ok _, .error _ => .isFalse (by intro hc; cases hc)
  | .ok a, .ok b =>
    if h : a = b then .isTrue (by rw [h]) else .isFalse (by intro hc; cases hc; exact h rfl)

/-- Fatal consistency faults, i.e. the engine's debug-build assertion macros. -/
inductive GLFault where
  /-- A failing `check(...)` / `checkf(...)` assertion. -/
  | checkFailed : GLFault
  /-- The `checkNoEntry()` hit when a shadow slot that already holds data is written again. -/
  | noEntry : GLFault
  /-- Dereference of an invalid `EvictionParamsPtr`. -/
  | nullDeref : GLFault
  /-- `TArray` index out of bounds. -/
  | outOfBounds : GLFault
  deriving Repr, DecidableEq

/-- `EResourceLockMode`. -/
inductive LockMode where
  | readOnly : LockMode
  | writeOnly : LockMode
  deriving Repr, DecidableEq

/-- What a pointer returned by `Lock` addresses. -/
inductive LockPtr where
  /-- `EvictionParamsPtr->MipImageData[Mip].GetData()` — the shadow slot of mip `mip`. -/
  | shadowSlot (mip : Nat) : LockPtr
  /-- The pixel buffer object mirroring mip `mip` (2D: `BufferIndex = mip`). -/
  | pixelBuffer (mip : Nat) : LockPtr
  deriving Repr, DecidableEq

/-! ## Texture creation flags

`ETextureCreateFlags` is declared in an engine header that is not part of this
repository; only the bit positions below are needed and only their pairwise
distinctness matters to any statement in this development. Modelled from the
spec (§4.1, §6 `deferralExclusionFlagMask`) and the engine's flag names used in
`OpenGLTexture.cpp`. -/

def TexCreate_RenderTargetable : Nat := 1
def TexCreate_ResolveTargetable : Nat := 2
def TexCreate_DepthStencilTargetable : Nat := 4
def TexCreate_ShaderResource : Nat := 8
def TexCreate_SRGB : Nat := 16
def TexCreate_CPUWritable : Nat := 32
def TexCreate_OfflineProcessed : Nat := 2 ^ 19
def TexCreate_Transient : Nat := 2 ^ 27
def TexCreate_Streamable : Nat := 2 ^ 28

/-- The union of flags NOT excluded by the default exclusion mask. -/
def DeferAllowedFlags : Nat :=
  TexCreate_ShaderResource ||| TexCreate_SRGB ||| TexCreate_Transient |||
    TexCreate_Streamable ||| TexCreate_OfflineProcessed

/-- Default value of `r.OpenGL.DeferTextureCreationExcludeFlags`
(`OpenGLTexture.cpp:40`): the bitwise complement (in 32 bits) of
`TexCreate_ShaderResource | TexCreate_SRGB | TexCreate_Transient |
TexCreate_Streamable | TexCreate_OfflineProcessed`. -/
def DefaultDeferTextureCreationExcludeMask : Nat :=
  DeferAllowedFlags ^^^ (2 ^ 32 - 1)

/-- The global console-variable / engine state read by the eviction subsystem. -/
structure GLConfig where
  /-- `r.OpenGL.DeferTextureCreation` (as a boolean). -/
  DeferTextureCreation : Bool
  /-- `FOpenGL::SupportsCopyImage()`. -/
  SupportsCopyImage : Bool
  /-- `r.OpenGL.DeferTextureCreationExcludeFlags`. -/
  DeferTextureCreationExcludeMask : Nat
  /-- `r.OpenGL.DeferTextureCreationKeepLowerMipCount` (`-1` = use the streamer's policy). -/
  KeepLowerMipCount : Int
  /-- `UTexture::GetStaticMinTextureResidentMipCount()`. -/
  StaticMinResidentMipCount : Nat
  /-- `r.OpenGL.TextureEvictionFrameCount` (`GOGLTextureEvictFramesToLive`). -/
  EvictFramesToLive : Nat
  /-- `r.OpenGL.TextureEvictsPerFrame` (`GOGLTexturesToEvictPerFrame`). -/
  EvictsPerFrame : Nat
  /-- `GFrameNumberRenderThread` (a `uint32`, hence `< 2^32`). -/
  FrameNumber : Nat
  deriving Repr, DecidableEq

/-- `CanDeferTextureCreation()` (`OpenGLTexture.cpp:1317`), non-Android branch:
the config-rules override is Android-only. -/
def CanDeferTextureCreation (cfg : GLConfig) : Bool :=
  cfg.DeferTextureCreation

/-! ## `FTextureEvictionParams` — the per-texture shadow mip store -/

/-- `FTextureEvictionParams` (`OpenGLTexture.cpp:3203`): the CPU-side shadow
state owned by an eviction-eligible texture. `LRUNodeValid` models
`LRUNode.IsValidId()` (the `FSetElementId` back-reference into the LRU). -/
structure FTextureEvictionParams where
  MipImageData : List Buf
  bHasRestored : Bool
  FrameLastRendered : Nat
  LRUNodeValid : Bool
  deriving Repr, DecidableEq

namespace FTextureEvictionParams

/-- The constructor `FTextureEvictionParams(uint32 NumMips)`
(`OpenGLTexture.cpp:3203`): `NumMips` empty slots, not restored, frame 0. -/
def init (NumMips : Nat) : FTextureEvictionParams :=
  { MipImageData := List.replicate NumMips []
    bHasRestored := false
    FrameLastRendered := 0
    LRUNodeValid := false }

/-- The buffer `SetMipData` leaves in a slot: `SetNumUninitialized(Bytes)`
followed by `Memcpy(.., Data, Bytes)` when `Data` is non-null. The result
always has length `Bytes`; bytes beyond the source data stay uninitialized
(callers always pass source data of exactly `Bytes` bytes). -/
def newSlot (Data : Option (List Nat)) (Bytes : Nat) : Buf :=
  match Data with
  | some d => (d.map some ++ List.replicate Bytes none).take Bytes
  | none => List.replicate Bytes none

/-- `FTextureEvictionParams::SetMipData` (`OpenGLTexture.cpp:3225`).
Faults: `checkf(Bytes, ...)`; `TArray` bounds on `MipImageData[MipIndex]`;
`checkNoEntry()` when the slot already holds data. -/
def SetMipData (p : FTextureEvictionParams) (MipIndex : Nat) (Data : Option (List Nat))
    (Bytes : Nat) : Except GLFault FTextureEvictionParams :=
  if Bytes = 0 then .error .checkFailed
  else if h : MipIndex < p.MipImageData.length then
    if p.MipImageData.get ⟨MipIndex, h⟩ ≠ [] then .error .noEntry
    else .ok { p with MipImageData := p.MipImageData.set MipIndex (newSlot Data Bytes) }
  else .error .outOfBounds

/-- `FTextureEvictionParams::ReleaseMipData` (`OpenGLTexture.cpp:3268`).
The loop `for (i = Num()-1-RetainMips; i >= 0; i--)` empties exactly the slots
`i` with `i + RetainMips < Num()`; when `RetainMips = 0` the whole array is
then emptied. (`Num()-1-RetainMips` is signed on the engine's platforms: for
`RetainMips >= Num()` the loop body never runs.) -/
def ReleaseMipData (p : FTextureEvictionParams) (RetainMips : Nat) : FTextureEvictionParams :=
  if RetainMips = 0 then { p with MipImageData := [] }
  else
    { p with
      MipImageData :=
        p.MipImageData.mapIdx fun i buf =>
          if i + RetainMips < p.MipImageData.length then [] else buf }

/-- Modelled from the spec: `allMipsPresent()` (§4.2) — "true iff every slot
holds non-empty data". The member function `AreAllMipsPresent` is declared in
an engine header that is not part of this repository. -/
def AreAllMipsPresent (p : FTextureEvictionParams) : Bool :=
  p.MipImageData.all fun b => !b.isEmpty

end FTextureEvictionParams

/-! ## The texture object -/

/-- `FOpenGLPixelBuffer`: the per-mip pixel buffer object used by the
non-evicted `Lock`/`Unlock` path. -/
structure FOpenGLPixelBuffer where
  Size : Nat
  bLocked : Bool
  bLockReadOnly : Bool
  Content : Buf
  deriving Repr, DecidableEq

/-- The slice of `TOpenGLTexture` state the eviction subsystem reads and
writes. `TargetIs2D` models `Target == GL_TEXTURE_2D && GetTexture2D() != 0`;
`GpuStorage` is the driver-side storage: `none` while no storage is allocated
(deferred/evicted), otherwise one `Option Buf` per mip whose `none` means the
mip level was never uploaded. -/
structure TOpenGLTexture where
  NumMips : Nat
  SizeX : Nat
  SizeY : Nat
  BlockSizeX : Nat
  BlockSizeY : Nat
  BlockBytes : Nat
  Flags : Nat
  TargetIs2D : Bool
  bAliased : Bool
  EvictionParams : Option FTextureEvictionParams
  PixelBuffers : List (Option FOpenGLPixelBuffer)
  GpuStorage : Option (List (Option Buf))
  deriving Repr, DecidableEq

namespace TOpenGLTexture

/-- The shadow mip array behind `EvictionParamsPtr`, or `[]` when the pointer
is invalid (readers below only use this under a validity guard). -/
def mipData (t : TOpenGLTexture) : List Buf :=
  match t.EvictionParams with
  | some p => p.MipImageData
  | none => []

/-- Modelled from the spec: `IsEvicted()` is declared in an engine header not
part of this repository; per the spec's state machine (§4.5, glossary) a
texture is in the `Evicted` state iff it has eviction state and its GPU
storage has not been (re)materialized (`!bHasRestored`). -/
def IsEvicted (t : TOpenGLTexture) : Bool :=
  match t.EvictionParams with
  | some p => !p.bHasRestored
  | none => false

/-- `TOpenGLTexture::GetLockSize` (`OpenGLTexture.cpp:892`): the byte size of
mip `MipIndex` from the block-compressed layout. -/
def GetLockSize (t : TOpenGLTexture) (MipIndex : Nat) : Nat :=
  let MipSizeX := max (t.SizeX >>> MipIndex) t.BlockSizeX
  let MipSizeY := max (t.SizeY >>> MipIndex) t.BlockSizeY
  let NumBlocksX := (MipSizeX + t.BlockSizeX - 1) / t.BlockSizeX
  let NumBlocksY := (MipSizeY + t.BlockSizeY - 1) / t.BlockSizeY
  NumBlocksX * NumBlocksY * t.BlockBytes

/-- The `DestStride` out-parameter of `GetLockSize`: `NumBlocksX * BlockBytes`. -/
def GetLockStride (t : TOpenGLTexture) (MipIndex : Nat) : Nat :=
  let MipSizeX := max (t.SizeX >>> MipIndex) t.BlockSizeX
  let NumBlocksX := (MipSizeX + t.BlockSizeX - 1) / t.BlockSizeX
  NumBlocksX * t.BlockBytes

/-- `TOpenGLTexture::CanCreateAsEvicted` (`OpenGLTexture.cpp:1346`). -/
def CanCreateAsEvicted (cfg : GLConfig) (t : TOpenGLTexture) : Bool :=
  CanDeferTextureCreation cfg
    && cfg.SupportsCopyImage
    && t.Flags != 0
    && (cfg.DeferTextureCreationExcludeMask &&& t.Flags) == 0
    && t.TargetIs2D

/-- The two assertions at the head of `TOpenGLTexture::CanBeEvicted`
(`OpenGLTexture.cpp:1370,1373`): an eligible texture must carry eviction
state, and an aliased eligible texture must have an empty (and hence
mip-count-mismatched) shadow array. -/
def CanBeEvictedChecks (cfg : GLConfig) (t : TOpenGLTexture) : Bool :=
  (!CanCreateAsEvicted cfg t || t.EvictionParams.isSome)
    && (!CanCreateAsEvicted cfg t || !t.bAliased
        || (t.mipData.length == 0 && t.mipData.length != t.NumMips))

/-- The value computed by `TOpenGLTexture::CanBeEvicted`
(`OpenGLTexture.cpp:1376`): eligible, shadow array length equals the mip
count, and every slot holds data. (The `none` branch is unreachable under
the `checkf` of line 1370.) -/
def CanBeEvicted (cfg : GLConfig) (t : TOpenGLTexture) : Bool :=
  CanCreateAsEvicted cfg t
    && match t.EvictionParams with
       | some p =>
         p.MipImageData.length == t.NumMips && p.AreAllMipsPresent
       | none => false

/-- `TOpenGLTexture::CanBeEvicted` with its assertions (`OpenGLTexture.cpp:1366`). -/
def CanBeEvictedE (cfg : GLConfig) (t : TOpenGLTexture) : Except GLFault Bool :=
  if !CanBeEvictedChecks cfg t then .error .checkFailed
  else .ok (CanBeEvicted cfg t)

/-- `CanBeEvicted` as a function of a texture's static fields and a given
shadow mip array (for relating the predicate across restore's intermediate
states, whose static fields agree with the initial texture's). -/
def CanBeEvictedData (cfg : GLConfig) (t : TOpenGLTexture) (mid : List Buf) : Bool :=
  CanCreateAsEvicted cfg t && (mid.length == t.NumMips) && mid.all (fun b => !b.isEmpty)

/-- `TexCreate_CPUReadback` (bit position as for the flags above). -/
def texCreateCPUReadback : Nat := 2 ^ 18

/-- `TOpenGLTexture::Lock` (`OpenGLTexture.cpp:910`), 2D path (`ArrayIndex = 0`,
`BufferIndex = InMipIndex`). Evicted branch: the (non-fatal) `ensure` is a
no-op and the lock is serviced by `SetMipData(InMipIndex, 0, MipBytes)`,
returning the shadow slot's data pointer. Non-evicted branch: a pixel buffer
object of `MipBytes` is created on demand; for non-write-only locks of
non-CPU-resolved textures, `Resolve` reads the GPU mip back into the buffer
(the GL readback is modelled as a copy from `GpuStorage`). -/
def Lock (t : TOpenGLTexture) (InMipIndex : Nat) (LockMode : LockMode) :
    Except GLFault (LockPtr × TOpenGLTexture) :=
  let MipBytes := t.GetLockSize InMipIndex
  if t.IsEvicted then
    match t.EvictionParams with
    | none => .error .nullDeref
    | some p =>
      match p.SetMipData InMipIndex none MipBytes with
      | .error e => .error e
      | .ok p' => .ok (.shadowSlot InMipIndex, { t with EvictionParams := some p' })
  else
    if h : InMipIndex < t.PixelBuffers.length then
      let bBufferExists := (t.PixelBuffers.get ⟨InMipIndex, h⟩).isSome
      let pb :=
        match t.PixelBuffers.get ⟨InMipIndex, h⟩ with
        | some pb => pb
        | none =>
          { Size := MipBytes, bLocked := false, bLockReadOnly := false
            Content := List.replicate MipBytes none }
      if pb.Size ≠ MipBytes then .error .checkFailed
      else if pb.bLocked then .error .checkFailed
      else
        let bCPUTexResolved := bBufferExists && (t.Flags &&& texCreateCPUReadback != 0)
          && ((t.Flags &&& (TexCreate_RenderTargetable ||| TexCreate_DepthStencilTargetable)) == 0)
        let pb :=
          if LockMode ≠ .writeOnly && !bCPUTexResolved then
            -- Resolve(InMipIndex, 0): GPU -> pixel buffer readback
            match t.GpuStorage with
            | some mips =>
              match mips.getD InMipIndex none with
              | some gpuBytes => { pb with Content := gpuBytes }
              | none => pb
            | none => pb
          else pb
        let pb := { pb with bLocked := true, bLockReadOnly := LockMode == .readOnly }
        .ok (.pixelBuffer InMipIndex,
             { t with PixelBuffers := t.PixelBuffers.set InMipIndex (some pb) })
    else .error .outOfBounds

/-- `FMemory::Memcpy(pDest, ..)` through a pointer obtained from `Lock`:
overwrites the memory it addresses with `data`. -/
def writeThroughPtr (t : TOpenGLTexture) (ptr : LockPtr) (data : Buf) : TOpenGLTexture :=
  match ptr with
  | .shadowSlot mip =>
    match t.EvictionParams with
    | some p => { t with EvictionParams := some { p with MipImageData := p.MipImageData.set mip data } }
    | none => t
  | .pixelBuffer mip =>
    match t.PixelBuffers.getD mip none with
    | some pb => { t with PixelBuffers := t.PixelBuffers.set mip (some { pb with Content := data }) }
    | none => t

/-- `TOpenGLTexture::Unlock` (`OpenGLTexture.cpp:1021`), 2D path. Evicted
textures bail out early (no lock was actually performed). Otherwise the pixel
buffer must exist (`check(IsValidRef(..))`); unless the lock was read-only its
content is uploaded into the GPU mip (`glTexSubImage2D`, which requires the
storage allocated by a prior `TexStorage2D`/`TexImage2D`), and the buffer is
then freed. -/
def Unlock (t : TOpenGLTexture) (MipIndex : Nat) : Except GLFault TOpenGLTexture :=
  if t.IsEvicted then .ok t
  else
    match t.PixelBuffers.getD MipIndex none with
    | none => .error .checkFailed
    | some pb =>
      if !pb.bLockReadOnly then
        match t.GpuStorage with
        | none => .error .checkFailed
        | some mips =>
          if MipIndex < mips.length then
            .ok { t with
                  GpuStorage := some (mips.set MipIndex (some pb.Content))
                  PixelBuffers := t.PixelBuffers.set MipIndex none }
          else .error .checkFailed
      else .ok { t with PixelBuffers := t.PixelBuffers.set MipIndex none }

/-- One iteration of the upload loop of `RestoreEvictedGLResource`
(`OpenGLTexture.cpp:1247-1259`): if shadow data exists for mip `i`, check its
size, lock the mip write-only, copy the shadow bytes in, and unlock. -/
def restoreMip (t : TOpenGLTexture) (i : Nat) : Except GLFault TOpenGLTexture :=
  if (t.mipData.getD i []).isEmpty then .ok t
  else if (t.mipData.getD i []).length ≠ t.GetLockSize i then .error .checkFailed
  else
    match t.Lock i .writeOnly with
    | .error e => .error e
    | .ok r =>
      if t.GetLockStride i = 0 then .error .checkFailed
      else Unlock (writeThroughPtr r.2 r.1 (t.mipData.getD i [])) i

/-- The upload loop of `RestoreEvictedGLResource` (`OpenGLTexture.cpp:1247`):
`restoreMip` over the given mip indices in order (the caller passes
`MipImageData.Num()-1` down to `0`). -/
def restoreLoop : TOpenGLTexture → List Nat → Except GLFault TOpenGLTexture
  | t, [] => .ok t
  | t, i :: rest =>
    match restoreMip t i with
    | .error e => .error e
    | .ok ta => restoreLoop ta rest

/-- The effective `DeferTextureCreationKeepLowerMipCount`
(`OpenGLTexture.cpp:1262`): the cvar when non-negative, else the texture
streamer's resident mip count. -/
def keepEff (cfg : GLConfig) : Nat :=
  if 0 ≤ cfg.KeepLowerMipCount then cfg.KeepLowerMipCount.toNat
  else cfg.StaticMinResidentMipCount

/-- The `RetainMips` computation of `RestoreEvictedGLResource`
(`OpenGLTexture.cpp:1264`): retain only for streamable multi-mip non-aliased
textures when retention was requested. -/
def retainMipsOf (cfg : GLConfig) (bAttemptToRetainMips : Bool) (t : TOpenGLTexture) : Nat :=
  if bAttemptToRetainMips && (t.Flags &&& TexCreate_Streamable != 0)
      && decide (1 < t.NumMips) && !t.bAliased then keepEff cfg
  else 0

/-- `EvictionParamsPtr->ReleaseMipData(RetainMips)` lifted to the texture. -/
def releaseMips (t : TOpenGLTexture) (RetainMips : Nat) : TOpenGLTexture :=
  { t with EvictionParams := t.EvictionParams.map (·.ReleaseMipData RetainMips) }

/-- `TOpenGLTexture::RestoreEvictedGLResource` (`OpenGLTexture.cpp:1230`),
with `FTextureEvictionLRU::Add` (`OpenGLTexture.cpp:3170`) inlined at its one
call site. The LRU's occupancy is abstracted to its element count `lruNum`
and capacity `lruMax` (`ensure(TextureLRU.Num() != TextureLRU.Max())`).
Returns the final texture and whether it was registered in the LRU. -/
def RestoreEvictedGLResource (cfg : GLConfig) (lruNum lruMax : Nat)
    (bAttemptToRetainMips : Bool) (t : TOpenGLTexture) :
    Except GLFault (TOpenGLTexture × Bool) :=
  match t.EvictionParams with
  | none => .error .nullDeref
  | some p =>
    -- check(!EvictionParamsPtr->bHasRestored)
    if p.bHasRestored then .error .checkFailed
    -- checkf(EvictionParamsPtr->MipImageData.Num() == GetNumMips())
    else if p.MipImageData.length ≠ t.NumMips then .error .checkFailed
    else
      -- EvictionParamsPtr->bHasRestored = true; InitializeGLTextureInternal
      -- (materialize driver storage, no mip uploaded yet); then the upload loop
      match restoreLoop
          ({ t with EvictionParams := some { p with bHasRestored := true }
                    GpuStorage := some (List.replicate t.NumMips none) })
          ((List.range t.NumMips).reverse) with
      | .error e => .error e
      | .ok tm =>
        match tm.CanBeEvictedE cfg with
        | .error e => .error e
        | .ok b =>
          if b then
            match tm.EvictionParams with
            | none => .error .nullDeref
            | some q =>
              -- FTextureEvictionLRU::Add: check(!LRUNode.IsValidId()), capacity test
              if q.LRUNodeValid then .error .checkFailed
              else if lruNum ≠ lruMax then
                .ok (releaseMips
                  { tm with EvictionParams := some { q with LRUNodeValid := true, FrameLastRendered := cfg.FrameNumber } }
                  (retainMipsOf cfg bAttemptToRetainMips tm), true)
              else
                -- Add returned false: this texture can never be evicted; drop all mips
                .ok (releaseMips tm 0, false)
          else .ok (releaseMips tm (retainMipsOf cfg bAttemptToRetainMips tm), false)

/-- `TOpenGLTexture::TryEvictGLResource` (`OpenGLTexture.cpp:1297`): if the
texture is eligible and currently materialized and `CanBeEvicted`, destroy
the GPU storage, clear the restored flag and recreate only the GL texture
name (`InitializeGLTexture` on a now-evicted texture allocates no storage). -/
def TryEvictGLResource (cfg : GLConfig) (t : TOpenGLTexture) :
    Except GLFault TOpenGLTexture :=
  match t.EvictionParams with
  | none => if CanCreateAsEvicted cfg t then .error .nullDeref else .ok t
  | some p =>
    if CanCreateAsEvicted cfg t && p.bHasRestored then
      match t.CanBeEvictedE cfg with
      | .error e => .error e
      | .ok b =>
        if b then
          .ok { t with GpuStorage := none
                       EvictionParams := some { p with bHasRestored := false } }
        else .ok t
    else .ok t

end TOpenGLTexture

open TOpenGLTexture

/-! ## `FTextureEvictionLRU` — the eviction registry and its per-frame tick

The LRU container is modelled as a list of its member textures, least
recently used first (`GetLeastRecent` = head, `RemoveLeastRecent` = pop
head). Every member carries valid eviction state — `Add` asserts this — and
the tick's loop condition dereferences it. -/

/-- The age test of `FTextureEvictionLRU::TickEviction`
(`OpenGLTexture.cpp:3145`):
`(FrameLastRendered + GOGLTextureEvictFramesToLive) < GFrameNumberRenderThread`,
computed in 32-bit unsigned arithmetic (hence the `% 2^32` on the sum). -/
def EvictionAgeQualifies (cfg : GLConfig) (p : FTextureEvictionParams) : Bool :=
  (p.FrameLastRendered + cfg.EvictFramesToLive) % 2 ^ 32 < cfg.FrameNumber

/-- The loop of `FTextureEvictionLRU::TickEviction` (`OpenGLTexture.cpp:3144`),
with the running `EvictCount`. Each qualifying least-recent member is removed,
its `LRUNode` invalidated, and `TryEvictGLResource` is called on it. Returns
(remaining members, processed members in eviction order). -/
def TickEvictionLoop (cfg : GLConfig) :
    List TOpenGLTexture → Nat → Except GLFault (List TOpenGLTexture × List TOpenGLTexture)
  | [], _ => .ok ([], [])
  | t :: rest, EvictCount =>
    match t.EvictionParams with
    | none => .error .nullDeref
    | some p =>
      if EvictionAgeQualifies cfg p ∧ EvictCount < cfg.EvictsPerFrame then
        match TryEvictGLResource cfg { t with EvictionParams := some { p with LRUNodeValid := false } } with
        | .error e => .error e
        | .ok t2 =>
          match TickEvictionLoop cfg rest (EvictCount + 1) with
          | .error e => .error e
          | .ok pr => .ok (pr.1, t2 :: pr.2)
      else .ok (t :: rest, [])

/-- `FTextureEvictionLRU::TickEviction` (`OpenGLTexture.cpp:3136`). -/
def TickEviction (cfg : GLConfig) (lru : List TOpenGLTexture) :
    Except GLFault (List TOpenGLTexture × List TOpenGLTexture) :=
  TickEvictionLoop cfg lru 0

/-- The per-texture effect of being chosen by `TickEviction`
(`OpenGLTexture.cpp:3148-3150`): removal from the LRU invalidates the
texture's `LRUNode`, then `TryEvictGLResource` runs. -/
def EvictViaLRU (cfg : GLConfig) (t : TOpenGLTexture) : Except GLFault TOpenGLTexture :=
  match t.EvictionParams with
  | none => .error .nullDeref
  | some p =>
    TryEvictGLResource cfg { t with EvictionParams := some { p with LRUNodeValid := false } }

/-! ## Creation as evicted -/

/-- The per-mip byte count of the bulk-data copy loop of the evicted branch of
`InitializeGLTexture` (`OpenGLTexture.cpp:485-490`), for a 2D texture
(`NumLayers = 1`): `AlignArbitrary(max(1, Size >> Mip), BlockSize) / BlockSize`
blocks per axis. -/
def MipDataSizeCreate (t : TOpenGLTexture) (mip : Nat) : Nat :=
  ((max 1 (t.SizeX >>> mip) + t.BlockSizeX - 1) / t.BlockSizeX)
    * ((max 1 (t.SizeY >>> mip) + t.BlockSizeY - 1) / t.BlockSizeY)
    * t.BlockBytes

/-- `RHICreateTexture2D` + `InitializeGLTexture` (`OpenGLTexture.cpp:424-433`,
`441-500`) for a 2D texture: allocate the texture object; if
`CanCreateAsEvicted`, attach fresh eviction state and — taking the evicted
branch — skip GPU storage and copy any bulk data mip by mip into the shadow
store; otherwise materialize GPU storage immediately (the upload of bulk data
into GPU storage is external to the eviction core). -/
def CreateTexture2D (cfg : GLConfig) (SizeX SizeY NumMips Flags : Nat)
    (BlockSizeX BlockSizeY BlockBytes : Nat) (Bulk : Option (List (List Nat))) :
    Except GLFault TOpenGLTexture :=
  let t : TOpenGLTexture :=
    { NumMips := NumMips, SizeX := SizeX, SizeY := SizeY
      BlockSizeX := BlockSizeX, BlockSizeY := BlockSizeY, BlockBytes := BlockBytes
      Flags := Flags, TargetIs2D := true, bAliased := false
      EvictionParams := none
      PixelBuffers := List.replicate NumMips none
      GpuStorage := none }
  if CanCreateAsEvicted cfg t then
    let t := { t with EvictionParams := some (FTextureEvictionParams.init NumMips) }
    -- IsEvicted now holds: the evicted branch of InitializeGLTexture
    match Bulk with
    | none => .ok t
    | some bulk =>
      match t.EvictionParams with
      | none => .error .nullDeref
      | some p =>
        match (List.range NumMips).foldlM
            (fun q mip => q.SetMipData mip (some (bulk.getD mip [])) (MipDataSizeCreate t mip)) p with
        | .error e => .error e
        | .ok p' => .ok { t with EvictionParams := some p' }
  else
    .ok { t with GpuStorage := some (List.replicate NumMips none) }

/-- The restore–evict–restore sequence of the round-trip law: a first
restoration, eviction of the texture through the LRU scheduler, and a second
restoration. The LRU occupancy seen by both restores is the same `lruNum`
(the eviction removed the texture in between). -/
def RestoreEvictRestore (cfg : GLConfig) (lruNum lruMax : Nat) (t : TOpenGLTexture) :
    Except GLFault TOpenGLTexture :=
  match RestoreEvictedGLResource cfg lruNum lruMax true t with
  | .error e => .error e
  | .ok r1 =>
    match EvictViaLRU cfg r1.1 with
    | .error e => .error e
    | .ok t2 =>
      match RestoreEvictedGLResource cfg lruNum lruMax true t2 with
      | .error e => .error e
      | .ok r3 => .ok r3.1

/-- The GPU-side byte content of mip `i` (`none`: no storage, or never uploaded). -/
def gpuAt (t : TOpenGLTexture) (i : Nat) : Option Buf :=
  match t.GpuStorage with
  | some mips => mips.getD i none
  | none => none

/-! ## Concrete fixtures used by witnesses and counterexamples -/

/-- All console variables at their declared defaults (`OpenGLTexture.cpp:30-70`)
except `r.OpenGL.DeferTextureCreation = 1` (the subsystem enabled), on a
context supporting `CopyImage`, at render-thread frame 1000. -/
def cfgDefault : GLConfig :=
  { DeferTextureCreation := true
    SupportsCopyImage := true
    DeferTextureCreationExcludeMask := DefaultDeferTextureCreationExcludeMask
    KeepLowerMipCount := -1
    StaticMinResidentMipCount := 1
    EvictFramesToLive := 500
    EvictsPerFrame := 10
    FrameNumber := 1000 }

/-- `cfgDefault` with `r.OpenGL.DeferTextureCreationKeepLowerMipCount = 16`
(keep all mips). -/
def cfgKeepAll : GLConfig := { cfgDefault with KeepLowerMipCount := 16 }

/-- `cfgDefault` with `r.OpenGL.DeferTextureCreationKeepLowerMipCount = 1`. -/
def cfgKeep1 : GLConfig := { cfgDefault with KeepLowerMipCount := 1 }

/-- Shadow store of a 2-mip 2×2 8-bit texture with both mips populated. -/
def pTwoMips : FTextureEvictionParams :=
  { MipImageData := [[some 1, some 2, some 3, some 4], [some 5]]
    bHasRestored := false
    FrameLastRendered := 0
    LRUNodeValid := false }

/-- A 2×2, 2-mip, uncompressed (1×1 blocks, 1 byte) streamable 2D texture
created as evicted with both mips populated. -/
def texTwoMips : TOpenGLTexture :=
  { NumMips := 2, SizeX := 2, SizeY := 2
    BlockSizeX := 1, BlockSizeY := 1, BlockBytes := 1
    Flags := TexCreate_Streamable, TargetIs2D := true, bAliased := false
    EvictionParams := some pTwoMips
    PixelBuffers := [none, none]
    GpuStorage := none }

/-- The texture produced by restore–evict–restore on `texTwoMips` under full
retention (computed; the round-trip theorem is applied to it in its witness). -/
def texRoundTrip : TOpenGLTexture :=
  (RestoreEvictRestore cfgKeepAll 0 10 texTwoMips).toOption.getD texTwoMips

/-- A texture whose creation flags are exactly the four flags the spec names
as excluding (SRGB, transient, streamable, offline-processed). -/
def texClaimedExcluded : TOpenGLTexture :=
  { texTwoMips with
    Flags := TexCreate_SRGB ||| TexCreate_Transient ||| TexCreate_Streamable |||
      TexCreate_OfflineProcessed
    EvictionParams := none }

/-- A restored, fully resident 1-mip member of the eviction registry, last
touched at frame 0. -/
def texResident : TOpenGLTexture :=
  { NumMips := 1, SizeX := 1, SizeY := 1
    BlockSizeX := 1, BlockSizeY := 1, BlockBytes := 1
    Flags := TexCreate_Streamable, TargetIs2D := true, bAliased := false
    EvictionParams := some
      { MipImageData := [[some 7]], bHasRestored := true
        FrameLastRendered := 0, LRUNodeValid := true }
    PixelBuffers := [none]
    GpuStorage := some [some [some 7]] }

/-- A 4-slot shadow store, every slot holding one byte. -/
def pFourMips : FTextureEvictionParams :=
  { MipImageData := [[some 10], [some 11], [some 12], [some 13]]
    bHasRestored := true
    FrameLastRendered := 0
    LRUNodeValid := false }

/-- A 1-slot shadow store whose slot 0 already holds data (not restored). -/
def pOccupied : FTextureEvictionParams :=
  { MipImageData := [[some 9]]
    bHasRestored := false
    FrameLastRendered := 0
    LRUNodeValid := false }

/-- An evicted 1×1 texture whose single shadow slot is empty. -/
def texEvictedEmpty : TOpenGLTexture :=
  { NumMips := 1, SizeX := 1, SizeY := 1
    BlockSizeX := 1, BlockSizeY := 1, BlockBytes := 1
    Flags := TexCreate_Streamable, TargetIs2D := true, bAliased := false
    EvictionParams := some
      { MipImageData := [[]], bHasRestored := false
        FrameLastRendered := 0, LRUNodeValid := false }
    PixelBuffers := [none]
    GpuStorage := none }

/-- An evicted 1×1 texture whose single shadow slot already holds data. -/
def texEvictedOccupied : TOpenGLTexture :=
  { texEvictedEmpty with EvictionParams := some pOccupied }

/-- The (pointer, texture) result of a read-only lock of mip 0 of
`texEvictedEmpty` (computed; the lock theorems are applied to it in their
witnesses). -/
def lockEvictedRes : LockPtr × TOpenGLTexture :=
  (Lock texEvictedEmpty 0 .readOnly).toOption.getD (.pixelBuffer 0, texEvictedEmpty)

/-- `cfgDefault` at render-thread frame 500 (the member's age is then exactly
the eviction threshold). -/
def cfgFrame500 : GLConfig := { cfgDefault with FrameNumber := 500 }

/-- `cfgDefault` at render-thread frame 501. -/
def cfgFrame501 : GLConfig := { cfgDefault with FrameNumber := 501 }

/-- The (remaining, evicted) result of a tick over a single registry member of
age 501 (computed; the tick-policy theorem is applied to it in its witness). -/
def tickAt501 : List TOpenGLTexture × List TOpenGLTexture :=
  (TickEviction cfgFrame501 [texResident]).toOption.getD ([], [])

/-- Creation as evicted followed by a restore under
`KeepLowerMipCount = 1` — the run exhibiting a registered texture with a
released mip 0 (used against the full-residency invariant). -/
def partialResidencyRun : Except GLFault (TOpenGLTexture × Bool) :=
  (CreateTexture2D cfgKeep1 2 2 2 TexCreate_Streamable 1 1 1
      (some [[1, 2, 3, 4], [5]])).bind
    (fun t => RestoreEvictedGLResource cfgKeep1 0 10 true t)

/-- The (texture, registered) result of that partial-retention restore
(computed). -/
def partialRestored : TOpenGLTexture × Bool :=
  (RestoreEvictedGLResource cfgKeep1 0 10 true texTwoMips).toOption.getD
    (texTwoMips, false)

/-- The (texture, registered) result of a restore against a full registry
(`lruNum = lruMax = 5`); registration fails, the shadow tail is dropped
(computed). -/
def capFailRes : TOpenGLTexture × Bool :=
  (RestoreEvictedGLResource cfgKeepAll 5 5 true texTwoMips).toOption.getD
    (texTwoMips, true)

/-! # Theorems -/

namespace FTextureEvictionParams

theorem releaseMipData_bHasRestored (p : FTextureEvictionParams) (r : Nat) :
    (p.ReleaseMipData r).bHasRestored = p.bHasRestored := by
  unfold ReleaseMipData; split <;> rfl

theorem releaseMipData_LRUNodeValid (p : FTextureEvictionParams) (r : Nat) :
    (p.ReleaseMipData r).LRUNodeValid = p.LRUNodeValid := by
  unfold ReleaseMipData; split <;> rfl

theorem releaseMipData_FrameLastRendered (p : FTextureEvictionParams) (r : Nat) :
    (p.ReleaseMipData r).FrameLastRendered = p.FrameLastRendered := by
  unfold ReleaseMipData; split <;> rfl

theorem releaseMipData_zero (p : FTextureEvictionParams) :
    (p.ReleaseMipData 0).MipImageData = [] := by
  unfold ReleaseMipData; simp

theorem releaseMipData_length (p : FTextureEvictionParams) {r : Nat} (h : r ≠ 0) :
    (p.ReleaseMipData r).MipImageData.length = p.MipImageData.length := by
  unfold ReleaseMipData
  rw [if_neg h]
  simp [List.length_mapIdx]

theorem releaseMipData_getD (p : FTextureEvictionParams) {r : Nat} (h : r ≠ 0) (i : Nat) :
    (p.ReleaseMipData r).MipImageData.getD i [] =
      if i + r < p.MipImageData.length then [] else p.MipImageData.getD i [] := by
  unfold ReleaseMipData
  rw [if_neg h]
  by_cases hi : i < p.MipImageData.length
  · rw [List.getD_eq_getElem?_getD, List.getD_eq_getElem?_getD,
      List.getElem?_eq_getElem (by simpa [List.length_mapIdx] using hi),
      List.getElem?_eq_getElem hi]
    simp [List.getElem_mapIdx]
  · rw [List.getD_eq_getElem?_getD, List.getD_eq_getElem?_getD,
      List.getElem?_eq_none (by simpa [List.length_mapIdx] using le_of_not_lt hi),
      List.getElem?_eq_none (le_of_not_lt hi)]
    rw [if_neg (by omega)]

theorem newSlot_length (d : Option (List Nat)) (bytes : Nat) :
    (newSlot d bytes).length = bytes := by
  unfold newSlot
  cases d with
  | none => simp
  | some dd => simp [List.length_take]

theorem newSlot_copy (dd : List Nat) (bytes : Nat) (h : dd.length = bytes) :
    newSlot (some dd) bytes = dd.map some := by
  have h1 : newSlot (some dd) bytes
      = (dd.map some ++ List.replicate bytes none).take bytes := rfl
  have hlen : bytes = (dd.map some).length := by simp [h]
  rw [h1, hlen, List.take_left]

end FTextureEvictionParams

/-- C7 counterexample: with `mipCount = 4` and `retainCount = 1`, slot 2 held
data and is freed by `ReleaseMipData`, although it lies outside the claim's
freed index range `[0, mipCount-1-retainCount) = [0, 2)`. -/
theorem C7_claimed_range_false :
    (pFourMips.ReleaseMipData 1).MipImageData.getD 2 [] = [] ∧
    pFourMips.MipImageData.getD 2 [] ≠ [] ∧
    ¬ 2 < pFourMips.MipImageData.length - 1 - 1 := by
  decide

/-- C7 (amended): `releaseMips(retainCount)` frees exactly the slots in
`[0, mipCount - retainCount)` — leaving the lowest-resolution `retainCount`
mips intact — and when `retainCount = 0` the entire store is cleared. -/
theorem C7_releaseMips_frees_exact_range (p : FTextureEvictionParams) (retain : Nat) :
    (retain = 0 → (p.ReleaseMipData retain).MipImageData = []) ∧
    (retain ≠ 0 →
      (p.ReleaseMipData retain).MipImageData.length = p.MipImageData.length ∧
      ∀ i, (p.ReleaseMipData retain).MipImageData.getD i [] =
        if i + retain < p.MipImageData.length then [] else p.MipImageData.getD i []) := by
  refine ⟨fun h => ?_, fun h => ⟨p.releaseMipData_length h, fun i => p.releaseMipData_getD h i⟩⟩
  subst h
  exact p.releaseMipData_zero

/-- Witness for the amended C7, at `mipCount = 4`, `retainCount = 1`:
slot 3 (the retained tail) is intact, and `retainCount = 0` clears the store. -/
theorem C7_releaseMips_frees_exact_range_w :
    (pFourMips.ReleaseMipData 1).MipImageData.getD 3 [] = [some 13] ∧
    (pFourMips.ReleaseMipData 0).MipImageData = [] := by
  constructor
  · have h := ((C7_releaseMips_frees_exact_range pFourMips 1).2 (by decide)).2 3
    exact h.trans (by decide)
  · exact (C7_releaseMips_frees_exact_range pFourMips 0).1 rfl

/-- C8: a second `setMipData` on an occupied slot faults (`checkNoEntry`) and
returns no updated state; a first call on an empty slot allocates a buffer of
exactly `byteCount` bytes and, when the source is non-null and of that size,
copies its bytes in. -/
theorem C8_setMipData_write_once (p : FTextureEvictionParams) (mip bytes : Nat)
    (d : Option (List Nat)) (hm : mip < p.MipImageData.length) (hb : 0 < bytes) :
    (p.MipImageData.get ⟨mip, hm⟩ ≠ [] → p.SetMipData mip d bytes = .error .noEntry) ∧
    (p.MipImageData.get ⟨mip, hm⟩ = [] →
      p.SetMipData mip d bytes =
        .ok { p with MipImageData :=
          p.MipImageData.set mip (FTextureEvictionParams.newSlot d bytes) } ∧
      (FTextureEvictionParams.newSlot d bytes).length = bytes ∧
      ∀ dd, d = some dd → dd.length = bytes →
        FTextureEvictionParams.newSlot d bytes = dd.map some) := by
  unfold FTextureEvictionParams.SetMipData
  rw [if_neg (by omega)]
  rw [dif_pos hm]
  constructor
  · intro hne
    rw [if_pos hne]
  · intro heq
    rw [List.get_eq_getElem] at heq
    rw [if_neg (by simp [heq])]
    exact ⟨rfl, FTextureEvictionParams.newSlot_length d bytes,
      fun dd hdd hlen => hdd ▸ FTextureEvictionParams.newSlot_copy dd bytes hlen⟩

/-- Witness for C8: the occupied slot 0 of `pOccupied` faults on rewrite. -/
theorem C8_setMipData_write_once_w :
    pOccupied.SetMipData 0 (some [1, 2]) 2 = .error .noEntry :=
  (C8_setMipData_write_once pOccupied 0 2 (some [1, 2]) (by decide) (by decide)).1 (by decide)

/-! ## C4 — `CanCreateAsEvicted` and the exclusion mask -/

theorem land_zero_right (n : Nat) : n &&& 0 = 0 :=
  Nat.eq_of_testBit_eq (by simp [Nat.testBit_land, Nat.zero_testBit])

/-- Flags disjoint from the default exclusion mask lie inside the allowed set
(the mask is the 32-bit complement of `DeferAllowedFlags`). -/
theorem land_default_mask_subset {f : Nat} (hf : f < 2 ^ 32)
    (h : DefaultDeferTextureCreationExcludeMask &&& f = 0) :
    f &&& DeferAllowedFlags = f := by
  apply Nat.eq_of_testBit_eq
  intro i
  rw [Nat.testBit_land]
  by_cases hi : i < 32
  · have hmask : ∀ j, j < 32 →
        DefaultDeferTextureCreationExcludeMask.testBit j = !DeferAllowedFlags.testBit j := by
      decide
    have h0 : (DefaultDeferTextureCreationExcludeMask &&& f).testBit i = false := by
      rw [h]; exact Nat.zero_testBit i
    rw [Nat.testBit_land, hmask i hi] at h0
    cases hfi : f.testBit i <;> cases hai : DeferAllowedFlags.testBit i <;> simp_all
  · have hbit : f.testBit i = false :=
      Nat.testBit_lt_two_pow
        (lt_of_lt_of_le hf (Nat.pow_le_pow_right (by norm_num) (le_of_not_lt hi)))
    simp [hbit]

/-- C4 counterexample: a texture carrying exactly the flags the claim names as
excluding (SRGB, transient, streamable, offline-processed) is accepted by
`CanCreateAsEvicted` under the default exclusion mask. -/
theorem C4_claimed_excluding_flags_false :
    CanCreateAsEvicted cfgDefault texClaimedExcluded = true ∧
    texClaimedExcluded.Flags &&& TexCreate_SRGB ≠ 0 ∧
    texClaimedExcluded.Flags &&& TexCreate_Transient ≠ 0 ∧
    texClaimedExcluded.Flags &&& TexCreate_Streamable ≠ 0 ∧
    texClaimedExcluded.Flags &&& TexCreate_OfflineProcessed ≠ 0 := by
  decide

/-- C4 (amended): `CanCreateAsEvicted` is true only if deferred creation is
enabled, the context supports the cross-texture copy, the flag set is nonzero
and disjoint from the configured exclusion mask, and the texture is exactly
2D; under the DEFAULT mask, disjointness means the flag set lies within
{shader-resource, SRGB, transient, streamable, offline-processed} — those
flags are the permitted ones, and any flag outside the set (render-targetable,
resolve-targetable, depth-stencil-targetable, ...) excludes the texture. -/
theorem C4_canCreateAsEvicted_only_if (cfg : GLConfig) (t : TOpenGLTexture)
    (hf : t.Flags < 2 ^ 32) (h : CanCreateAsEvicted cfg t = true) :
    CanDeferTextureCreation cfg = true ∧ cfg.SupportsCopyImage = true ∧
    t.Flags ≠ 0 ∧ cfg.DeferTextureCreationExcludeMask &&& t.Flags = 0 ∧
    t.TargetIs2D = true ∧
    (cfg.DeferTextureCreationExcludeMask = DefaultDeferTextureCreationExcludeMask →
      t.Flags &&& DeferAllowedFlags = t.Flags ∧
      t.Flags &&& TexCreate_RenderTargetable = 0 ∧
      t.Flags &&& TexCreate_ResolveTargetable = 0 ∧
      t.Flags &&& TexCreate_DepthStencilTargetable = 0) := by
  unfold CanCreateAsEvicted at h
  simp only [Bool.and_eq_true, bne_iff_ne, ne_eq, beq_iff_eq] at h
  obtain ⟨⟨⟨⟨h1, h2⟩, h3⟩, h4⟩, h5⟩ := h
  refine ⟨h1, h2, h3, h4, h5, fun hd => ?_⟩
  have hsub : t.Flags &&& DeferAllowedFlags = t.Flags :=
    land_default_mask_subset hf (hd ▸ h4)
  have hout : ∀ g : Nat, DeferAllowedFlags &&& g = 0 → t.Flags &&& g = 0 := by
    intro g hg
    calc t.Flags &&& g = t.Flags &&& DeferAllowedFlags &&& g := by rw [hsub]
    _ = t.Flags &&& (DeferAllowedFlags &&& g) := Nat.land_assoc _ _ _
    _ = t.Flags &&& 0 := by rw [hg]
    _ = 0 := land_zero_right _
  exact ⟨hsub, hout _ (by decide), hout _ (by decide), hout _ (by decide)⟩

/-- Witness for the amended C4 at the concrete `texClaimedExcluded` under the
default configuration. -/
theorem C4_canCreateAsEvicted_only_if_w :
    texClaimedExcluded.Flags &&& DeferAllowedFlags = texClaimedExcluded.Flags ∧
    texClaimedExcluded.Flags &&& TexCreate_RenderTargetable = 0 :=
  have h := C4_canCreateAsEvicted_only_if cfgDefault texClaimedExcluded
    (by decide) (by decide)
  ⟨(h.2.2.2.2.2 rfl).1, (h.2.2.2.2.2 rfl).2.1⟩

/-! ## C2 — the eviction tick -/

/-- Full characterization of the tick loop, generalized over the running
`EvictCount`: it pops and processes a qualifying prefix, bounded by the
remaining per-frame budget, and stops at the first non-qualifying member. -/
theorem tickEvictionLoop_spec (cfg : GLConfig) (lru : List TOpenGLTexture) :
    ∀ (c : Nat) (rem ev : List TOpenGLTexture),
      TickEvictionLoop cfg lru c = .ok (rem, ev) →
      ev.length ≤ cfg.EvictsPerFrame - c ∧
      rem = lru.drop ev.length ∧
      (∀ t ∈ lru.take ev.length, ∀ p, t.EvictionParams = some p →
        EvictionAgeQualifies cfg p = true) ∧
      (ev.length + c < cfg.EvictsPerFrame →
        ∀ t, rem.head? = some t → ∀ p, t.EvictionParams = some p →
          EvictionAgeQualifies cfg p = false) := by
  induction lru with
  | nil =>
    intro c rem ev h
    simp only [TickEvictionLoop, Except.ok.injEq, Prod.mk.injEq] at h
    obtain ⟨h1, h2⟩ := h
    subst h1; subst h2
    simp
  | cons t rest ih =>
    intro c rem ev h
    unfold TickEvictionLoop at h
    split at h
    · exact absurd h (by simp)
    · rename_i p hp
      split at h
      · rename_i hcond
        split at h
        · exact absurd h (by simp)
        · rename_i t2 htv
          split at h
          · exact absurd h (by simp)
          · rename_i pr hrec
            obtain ⟨rem1, ev1⟩ := pr
            simp only [Except.ok.injEq, Prod.mk.injEq] at h
            obtain ⟨h1, h2⟩ := h
            subst h1; subst h2
            obtain ⟨ihlen, ihdrop, ihtake, ihstop⟩ := ih (c + 1) rem1 ev1 hrec
            have hc2 : c < cfg.EvictsPerFrame := hcond.2
            refine ⟨by simp only [List.length_cons]; omega, ?_, ?_, ?_⟩
            · simpa using ihdrop
            · intro x hx q hq
              simp only [List.length_cons, List.take_succ_cons, List.mem_cons] at hx
              rcases hx with hx | hx
              · subst hx
                rw [hp] at hq
                cases hq
                exact hcond.1
              · exact ihtake x hx q hq
            · intro hlt
              exact ihstop (by simp only [List.length_cons] at hlt; omega)
      · rename_i hcond
        simp only [Except.ok.injEq, Prod.mk.injEq] at h
        obtain ⟨h1, h2⟩ := h
        subst h1; subst h2
        refine ⟨by simp, by simp, by simp, ?_⟩
        intro hlt x hx q hq
        simp only [List.head?_cons, Option.some.injEq] at hx
        subst hx
        rw [hp] at hq
        cases hq
        have : ¬ (EvictionAgeQualifies cfg p = true) := fun hqual => hcond ⟨hqual, by omega⟩
        simpa using this

/-- C2 counterexample: a registry member whose age `currentFrame -
lastTouchedFrame` equals `evictionAgeThresholdFrames` exactly (500 at frame
500) is NOT evicted by the tick — the code's test is strict (`lastTouched +
threshold < currentFrame`), so the claim's `>=` policy does not hold. -/
theorem C2_age_at_threshold_not_evicted :
    TickEviction cfgFrame500 [texResident] = .ok ([texResident], []) ∧
    texResident.EvictionParams.map FTextureEvictionParams.FrameLastRendered = some 0 ∧
    cfgFrame500.EvictFramesToLive ≤ cfgFrame500.FrameNumber - 0 ∧
    0 < cfgFrame500.EvictsPerFrame := by
  decide

/-- C2 (amended): in one tick, the scheduler pops qualifying least-recent
members in order, evicting a member only when
`lastTouchedFrame + evictionAgeThresholdFrames < currentFrame` (strictly —
age at least threshold + 1), evicts at most `maxEvictionsPerFrame` members,
and stops at the first non-qualifying member even when budget remains. -/
theorem C2_tickEviction_policy (cfg : GLConfig) (lru rem ev : List TOpenGLTexture)
    (h : TickEviction cfg lru = .ok (rem, ev)) :
    ev.length ≤ cfg.EvictsPerFrame ∧
    rem = lru.drop ev.length ∧
    (∀ t ∈ lru.take ev.length, ∀ p, t.EvictionParams = some p →
      EvictionAgeQualifies cfg p = true ∧
      (p.FrameLastRendered + cfg.EvictFramesToLive < 2 ^ 32 →
        p.FrameLastRendered + cfg.EvictFramesToLive < cfg.FrameNumber)) ∧
    (ev.length < cfg.EvictsPerFrame →
      ∀ t, rem.head? = some t → ∀ p, t.EvictionParams = some p →
        EvictionAgeQualifies cfg p = false) := by
  obtain ⟨hlen, hdrop, htake, hstop⟩ := tickEvictionLoop_spec cfg lru 0 rem ev h
  refine ⟨by omega, hdrop, ?_, fun hlt => hstop (by omega)⟩
  intro t ht p hp
  have hq := htake t ht p hp
  refine ⟨hq, fun hnov => ?_⟩
  unfold EvictionAgeQualifies at hq
  have := of_decide_eq_true hq
  rwa [Nat.mod_eq_of_lt hnov] at this

/-- Witness for the amended C2: at frame 501 the single age-501 member is
evicted; the theorem applies to that tick. -/
theorem C2_tickEviction_policy_w :
    tickAt501.2.length ≤ cfgFrame501.EvictsPerFrame := by
  have h : TickEviction cfgFrame501 [texResident] = .ok (tickAt501.1, tickAt501.2) := by
    decide
  exact (C2_tickEviction_policy cfgFrame501 [texResident] _ _ h).1

/-! ## C9, C10 — `Lock` on an evicted texture -/

/-- Inversion of a successful `SetMipData`: the byte count was positive, the
slot index in range, the slot empty, and the only change is the freshly
allocated slot. -/
theorem setMipData_ok_inv {p : FTextureEvictionParams} {i b : Nat}
    {d : Option (List Nat)} {p' : FTextureEvictionParams}
    (h : p.SetMipData i d b = .ok p') :
    0 < b ∧ i < p.MipImageData.length ∧ p.MipImageData.getD i [] = [] ∧
    p' = { p with MipImageData :=
      p.MipImageData.set i (FTextureEvictionParams.newSlot d b) } := by
  unfold FTextureEvictionParams.SetMipData at h
  split at h
  · exact absurd h (by simp)
  · rename_i hb
    split at h
    · rename_i hm
      split at h
      · exact absurd h (by simp)
      · rename_i hslot
        simp only [ne_eq, not_not, List.get_eq_getElem] at hslot
        simp only [Except.ok.injEq] at h
        refine ⟨by omega, hm, ?_, h.symm⟩
        rw [List.getD_eq_getElem?_getD, List.getElem?_eq_getElem hm]
        simpa using hslot
    · exact absurd h (by simp)

/-- C9: locking a mip of an evicted texture never triggers restoration and
never creates GPU storage — the restored flag, the GPU storage and the pixel
buffers are unchanged, the texture stays evicted, and the returned pointer
addresses the mip's shadow slot. -/
theorem C9_lock_evicted_serviced_from_shadow (t : TOpenGLTexture) (mip : Nat)
    (mode : LockMode) (ptr : LockPtr) (t' : TOpenGLTexture)
    (he : t.IsEvicted = true) (h : Lock t mip mode = .ok (ptr, t')) :
    ptr = .shadowSlot mip ∧
    t'.IsEvicted = true ∧
    t'.EvictionParams.map FTextureEvictionParams.bHasRestored
      = t.EvictionParams.map FTextureEvictionParams.bHasRestored ∧
    t'.GpuStorage = t.GpuStorage ∧
    t'.PixelBuffers = t.PixelBuffers := by
  unfold Lock at h
  rw [if_pos he] at h
  split at h
  · exact absurd h (by simp)
  · rename_i p hp
    split at h
    · exact absurd h (by simp)
    · rename_i p2 hs
      simp only [Except.ok.injEq, Prod.mk.injEq] at h
      obtain ⟨h1, h2⟩ := h
      subst h1; subst h2
      obtain ⟨-, -, -, hp2⟩ := setMipData_ok_inv hs
      subst hp2
      have hrest : p.bHasRestored = false := by
        unfold TOpenGLTexture.IsEvicted at he
        rw [hp] at he
        simpa using he
      refine ⟨rfl, ?_, by simp [hp], rfl, rfl⟩
      unfold TOpenGLTexture.IsEvicted
      simp [hrest]

/-- Witness for C9 at the concrete evicted texture `texEvictedEmpty`. -/
theorem C9_lock_evicted_serviced_from_shadow_w :
    lockEvictedRes.1 = .shadowSlot 0 ∧ lockEvictedRes.2.IsEvicted = true := by
  have h : Lock texEvictedEmpty 0 .readOnly = .ok (lockEvictedRes.1, lockEvictedRes.2) := by
    decide
  have hc := C9_lock_evicted_serviced_from_shadow texEvictedEmpty 0 .readOnly
    lockEvictedRes.1 lockEvictedRes.2 (by decide) h
  exact ⟨hc.1, hc.2.1⟩

/-- C10: for any lock mode, a lock of a mip of an evicted texture requires the
mip's shadow slot to be empty — a successful lock implies the slot held no
data, allocates a fresh, fully uninitialized buffer of exactly the computed
mip byte size in that slot, and returns a pointer to it; if the slot already
holds data the lock faults. -/
theorem C10_lock_evicted_fresh_uninitialized (t : TOpenGLTexture) (mip : Nat)
    (mode : LockMode) (he : t.IsEvicted = true) :
    (∀ ptr t', Lock t mip mode = .ok (ptr, t') →
      t.mipData.getD mip [] = [] ∧ mip < t.mipData.length ∧
      ptr = .shadowSlot mip ∧
      t'.mipData.getD mip [] = List.replicate (t.GetLockSize mip) none) ∧
    (t.mipData.getD mip [] ≠ [] → ∃ e, Lock t mip mode = .error e) := by
  cases hp : t.EvictionParams with
  | none =>
    exfalso
    unfold TOpenGLTexture.IsEvicted at he
    rw [hp] at he
    simp at he
  | some p =>
    have hmd : t.mipData = p.MipImageData := by
      unfold TOpenGLTexture.mipData; rw [hp]
    constructor
    · intro ptr t' h
      unfold Lock at h
      rw [if_pos he] at h
      split at h
      · rename_i hp2
        rw [hp] at hp2
        exact absurd hp2 (by simp)
      · rename_i q hq
        rw [hp] at hq
        simp only [Option.some.injEq] at hq
        subst hq
        split at h
        · exact absurd h (by simp)
        · rename_i p2 hs
          simp only [Except.ok.injEq, Prod.mk.injEq] at h
          obtain ⟨h1, h2⟩ := h
          subst h1; subst h2
          obtain ⟨hb, hm, hempty, hp2⟩ := setMipData_ok_inv hs
          subst hp2
          refine ⟨by rw [hmd]; exact hempty, by rw [hmd]; exact hm, rfl, ?_⟩
          show (p.MipImageData.set mip
            (FTextureEvictionParams.newSlot none (t.GetLockSize mip))).getD mip []
            = List.replicate (t.GetLockSize mip) none
          rw [List.getD_eq_getElem?_getD,
            List.getElem?_eq_getElem (by simpa [List.length_set] using hm)]
          rw [List.getElem_set_self]
          rfl
    · intro hne
      rw [hmd] at hne
      have hm : mip < p.MipImageData.length := by
        by_contra hcon
        rw [List.getD_eq_getElem?_getD, List.getElem?_eq_none (le_of_not_lt hcon)] at hne
        exact hne rfl
      cases hs : p.SetMipData mip none (t.GetLockSize mip) with
      | error e =>
        refine ⟨e, ?_⟩
        unfold Lock
        rw [if_pos he, hp]
        simp [hs]
      | ok p2 =>
        exfalso
        obtain ⟨-, -, hempty, -⟩ := setMipData_ok_inv hs
        exact hne hempty

/-- Witness for C10: the lock of the empty slot of `texEvictedEmpty` yields the
fresh uninitialized one-byte buffer. -/
theorem C10_lock_evicted_fresh_uninitialized_w :
    lockEvictedRes.2.mipData.getD 0 [] =
      List.replicate (texEvictedEmpty.GetLockSize 0) none := by
  have h : Lock texEvictedEmpty 0 .readOnly = .ok (lockEvictedRes.1, lockEvictedRes.2) := by
    decide
  exact (((C10_lock_evicted_fresh_uninitialized texEvictedEmpty 0 .readOnly
    (by decide)).1 lockEvictedRes.1 lockEvictedRes.2 h)).2.2.2

/-! ## The restore path: inversion lemmas -/

theorem mipData_of_params {t : TOpenGLTexture} {p : FTextureEvictionParams}
    (hp : t.EvictionParams = some p) : t.mipData = p.MipImageData := by
  unfold TOpenGLTexture.mipData; rw [hp]

theorem isEvicted_false_of_restored {t : TOpenGLTexture} {p : FTextureEvictionParams}
    (hp : t.EvictionParams = some p) (hr : p.bHasRestored = true) :
    t.IsEvicted = false := by
  unfold TOpenGLTexture.IsEvicted; rw [hp]; simp [hr]

theorem canCreateAsEvicted_congr (cfg : GLConfig) {t1 t2 : TOpenGLTexture}
    (hF : t1.Flags = t2.Flags) (hT : t1.TargetIs2D = t2.TargetIs2D) :
    CanCreateAsEvicted cfg t1 = CanCreateAsEvicted cfg t2 := by
  unfold TOpenGLTexture.CanCreateAsEvicted; rw [hF, hT]

theorem retainMipsOf_congr (cfg : GLConfig) (b : Bool) {t1 t2 : TOpenGLTexture}
    (hF : t1.Flags = t2.Flags) (hN : t1.NumMips = t2.NumMips)
    (hA : t1.bAliased = t2.bAliased) :
    retainMipsOf cfg b t1 = retainMipsOf cfg b t2 := by
  unfold retainMipsOf; rw [hF, hN, hA]

/-- `Lock` faults when the mip index exceeds the pixel-buffer array. -/
theorem lock_nonevicted_oob {t : TOpenGLTexture} {i : Nat} (hev : t.IsEvicted = false)
    (hm : ¬ i < t.PixelBuffers.length) (mode : LockMode) :
    Lock t i mode = .error .outOfBounds := by
  unfold Lock
  rw [if_neg (by simp [hev]), dif_neg hm]

/-- A write-only `Lock` of a non-evicted texture with no existing pixel buffer
for the mip creates a fresh one (locked, non-read-only, uninitialized) and
returns its pointer. -/
theorem lock_writeOnly_fresh_buffer {t : TOpenGLTexture} {i : Nat}
    (hev : t.IsEvicted = false) (hm : i < t.PixelBuffers.length)
    (hbuf : t.PixelBuffers.get ⟨i, hm⟩ = none) :
    Lock t i .writeOnly =
      .ok (.pixelBuffer i,
        { t with PixelBuffers := t.PixelBuffers.set i (some
          { Size := t.GetLockSize i, bLocked := true, bLockReadOnly := false
            Content := List.replicate (t.GetLockSize i) none }) }) := by
  unfold Lock
  rw [if_neg (by simp [hev]), dif_pos hm, hbuf]
  simp
  rfl

/-- A write-only `Lock` of a non-evicted texture over an existing, size-matched,
unlocked pixel buffer relocks it (non-read-only) and returns its pointer. -/
theorem lock_writeOnly_existing_buffer {t : TOpenGLTexture} {i : Nat}
    {pb0 : FOpenGLPixelBuffer} (hev : t.IsEvicted = false)
    (hm : i < t.PixelBuffers.length) (hbuf : t.PixelBuffers.get ⟨i, hm⟩ = some pb0)
    (hsz : pb0.Size = t.GetLockSize i) (hlk : pb0.bLocked = false) :
    Lock t i .writeOnly =
      .ok (.pixelBuffer i,
        { t with PixelBuffers := t.PixelBuffers.set i (some
          { pb0 with bLocked := true, bLockReadOnly := false }) }) := by
  unfold Lock
  rw [if_neg (by simp [hev]), dif_pos hm, hbuf]
  simp [hsz, hlk]
  rfl

/-- A write-only `Lock` faults on a size-mismatched existing buffer. -/
theorem lock_writeOnly_size_mismatch {t : TOpenGLTexture} {i : Nat}
    {pb0 : FOpenGLPixelBuffer} (hev : t.IsEvicted = false)
    (hm : i < t.PixelBuffers.length) (hbuf : t.PixelBuffers.get ⟨i, hm⟩ = some pb0)
    (hsz : pb0.Size ≠ t.GetLockSize i) :
    Lock t i .writeOnly = .error .checkFailed := by
  unfold Lock
  rw [if_neg (by simp [hev]), dif_pos hm, hbuf]
  simp [hsz]

/-- A write-only `Lock` faults on an already locked existing buffer. -/
theorem lock_writeOnly_already_locked {t : TOpenGLTexture} {i : Nat}
    {pb0 : FOpenGLPixelBuffer} (hev : t.IsEvicted = false)
    (hm : i < t.PixelBuffers.length) (hbuf : t.PixelBuffers.get ⟨i, hm⟩ = some pb0)
    (hsz : pb0.Size = t.GetLockSize i) (hlk : pb0.bLocked = true) :
    Lock t i .writeOnly = .error .checkFailed := by
  unfold Lock
  rw [if_neg (by simp [hev]), dif_pos hm, hbuf]
  simp [hsz, hlk]

/-- Inversion of a successful write-only `Lock` of a non-evicted texture: the
returned pointer is the mip's pixel buffer, and the only change is that buffer
slot (the buffer is locked non-read-only). -/
theorem lock_writeOnly_nonevicted_ok_inv {t : TOpenGLTexture} {i : Nat}
    {r : LockPtr × TOpenGLTexture} (hev : t.IsEvicted = false)
    (h : Lock t i .writeOnly = .ok r) :
    r.1 = .pixelBuffer i ∧ i < t.PixelBuffers.length ∧
    ∃ pb : FOpenGLPixelBuffer, pb.bLockReadOnly = false ∧
      r.2 = { t with PixelBuffers := t.PixelBuffers.set i (some pb) } := by
  by_cases hm : i < t.PixelBuffers.length
  · cases hbuf : t.PixelBuffers.get ⟨i, hm⟩ with
    | none =>
      rw [lock_writeOnly_fresh_buffer hev hm hbuf] at h
      simp only [Except.ok.injEq] at h
      subst h
      exact ⟨rfl, hm, ⟨_, rfl, rfl⟩⟩
    | some pb0 =>
      by_cases hsz : pb0.Size = t.GetLockSize i
      · cases hlk : pb0.bLocked with
        | true =>
          rw [lock_writeOnly_already_locked hev hm hbuf hsz hlk] at h
          exact absurd h (by simp)
        | false =>
          rw [lock_writeOnly_existing_buffer hev hm hbuf hsz hlk] at h
          simp only [Except.ok.injEq] at h
          subst h
          exact ⟨rfl, hm, ⟨_, rfl, rfl⟩⟩
      · rw [lock_writeOnly_size_mismatch hev hm hbuf hsz] at h
        exact absurd h (by simp)
  · rw [lock_nonevicted_oob hev hm .writeOnly] at h
    exact absurd h (by simp)

/-- `writeThroughPtr` through a pixel-buffer pointer overwrites that buffer's
content. -/
theorem writeThroughPtr_pixelBuffer {t : TOpenGLTexture} {i : Nat}
    {pb : FOpenGLPixelBuffer} (hpb : t.PixelBuffers.getD i none = some pb)
    (data : Buf) :
    writeThroughPtr t (.pixelBuffer i) data =
      { t with PixelBuffers := t.PixelBuffers.set i (some { pb with Content := data }) } := by
  simp only [writeThroughPtr]
  rw [hpb]

/-- A non-read-only `Unlock` of a non-evicted texture uploads the pixel
buffer's content into the allocated GPU mip and frees the buffer. -/
theorem unlock_upload {t : TOpenGLTexture} {i : Nat} {pb : FOpenGLPixelBuffer}
    (hev : t.IsEvicted = false) (hpb : t.PixelBuffers.getD i none = some pb)
    (hro : pb.bLockReadOnly = false) {mips : List (Option Buf)}
    (hgpu : t.GpuStorage = some mips) (hlen : i < mips.length) :
    Unlock t i =
      .ok { t with GpuStorage := some (mips.set i (some pb.Content)),
                   PixelBuffers := t.PixelBuffers.set i none } := by
  unfold Unlock
  rw [if_neg (by simp [hev]), hpb]
  simp [hro, hgpu, hlen]

/-- `Unlock` faults when no GPU storage is allocated for the upload. -/
theorem unlock_no_storage {t : TOpenGLTexture} {i : Nat} {pb : FOpenGLPixelBuffer}
    (hev : t.IsEvicted = false) (hpb : t.PixelBuffers.getD i none = some pb)
    (hro : pb.bLockReadOnly = false) (hgpu : t.GpuStorage = none) :
    Unlock t i = .error .checkFailed := by
  unfold Unlock
  rw [if_neg (by simp [hev]), hpb]
  simp [hro, hgpu]

/-- `Unlock` faults when the GPU mip index is out of range. -/
theorem unlock_oob {t : TOpenGLTexture} {i : Nat} {pb : FOpenGLPixelBuffer}
    (hev : t.IsEvicted = false) (hpb : t.PixelBuffers.getD i none = some pb)
    (hro : pb.bLockReadOnly = false) {mips : List (Option Buf)}
    (hgpu : t.GpuStorage = some mips) (hlen : ¬ i < mips.length) :
    Unlock t i = .error .checkFailed := by
  unfold Unlock
  rw [if_neg (by simp [hev]), hpb]
  simp [hro, hgpu, hlen]

/-- Inversion of a successful `Unlock` of a non-evicted texture holding a
non-read-only pixel buffer at mip `i`. -/
theorem unlock_upload_ok_inv {t : TOpenGLTexture} {i : Nat} {t' : TOpenGLTexture}
    {pb : FOpenGLPixelBuffer} (hev : t.IsEvicted = false)
    (hpb : t.PixelBuffers.getD i none = some pb) (hro : pb.bLockReadOnly = false)
    (h : Unlock t i = .ok t') :
    ∃ mips, t.GpuStorage = some mips ∧ i < mips.length ∧
      t' = { t with GpuStorage := some (mips.set i (some pb.Content)),
                    PixelBuffers := t.PixelBuffers.set i none } := by
  cases hgpu : t.GpuStorage with
  | none =>
    rw [unlock_no_storage hev hpb hro hgpu] at h
    exact absurd h (by simp)
  | some mips =>
    by_cases hlen : i < mips.length
    · rw [unlock_upload hev hpb hro hgpu hlen] at h
      simp only [Except.ok.injEq] at h
      exact ⟨mips, rfl, hlen, h.symm⟩
    · rw [unlock_oob hev hpb hro hgpu hlen] at h
      exact absurd h (by simp)

/-- Inversion of one successful iteration of the restore upload loop on a
non-evicted texture: the eviction state is untouched, static fields are
preserved, GPU allocation survives, and the GPU mip `i` now holds the shadow
bytes (when the slot was populated; other mips are untouched). -/
theorem isEvicted_congr {t1 t2 : TOpenGLTexture}
    (hp : t1.EvictionParams = t2.EvictionParams) : t1.IsEvicted = t2.IsEvicted := by
  unfold TOpenGLTexture.IsEvicted; rw [hp]

theorem restoreMip_ok_inv {t : TOpenGLTexture} {i : Nat} {t' : TOpenGLTexture}
    (hev : t.IsEvicted = false) (h : restoreMip t i = .ok t') :
    t'.EvictionParams = t.EvictionParams ∧
    t'.NumMips = t.NumMips ∧ t'.Flags = t.Flags ∧ t'.bAliased = t.bAliased ∧
    t'.TargetIs2D = t.TargetIs2D ∧
    t'.GpuStorage.isSome = t.GpuStorage.isSome ∧
    (∀ j, j ≠ i → gpuAt t' j = gpuAt t j) ∧
    (t.mipData.getD i [] = [] → t' = t) ∧
    (t.mipData.getD i [] ≠ [] → gpuAt t' i = some (t.mipData.getD i [])) := by
  unfold restoreMip at h
  split at h
  · rename_i hemp
    simp only [Except.ok.injEq] at h
    subst h
    refine ⟨rfl, rfl, rfl, rfl, rfl, rfl, fun _ _ => rfl, fun _ => rfl, fun hne => ?_⟩
    exact absurd (by simpa using hemp) hne
  · rename_i hemp
    split at h
    · exact absurd h (by simp)
    · rename_i hsize
      split at h
      · exact absurd h (by simp)
      · rename_i r hlockr
        split at h
        · exact absurd h (by simp)
        · rename_i hstride
          obtain ⟨rp, rt⟩ := r
          obtain ⟨hr1, him, pb, hpro, hr2⟩ := lock_writeOnly_nonevicted_ok_inv hev hlockr
          dsimp only at hr1 hr2 h
          subst hr1
          subst hr2
          have hpbat : ((t.PixelBuffers.set i (some pb))).getD i none = some pb := by
            rw [List.getD_eq_getElem?_getD, List.getElem?_set, if_pos rfl, if_pos him]
            rfl
          rw [writeThroughPtr_pixelBuffer (t := { t with PixelBuffers := t.PixelBuffers.set i (some pb) }) hpbat (t.mipData.getD i [])] at h
          have hev2 : ∀ pbl : List (Option FOpenGLPixelBuffer),
              ({ t with PixelBuffers := pbl } : TOpenGLTexture).IsEvicted = false := by
            intro pbl
            exact hev
          have hpbat2 : (((t.PixelBuffers.set i (some pb)).set i
              (some { pb with Content := t.mipData.getD i [] }))).getD i none
              = some { pb with Content := t.mipData.getD i [] } := by
            rw [List.getD_eq_getElem?_getD, List.getElem?_set, if_pos rfl,
              if_pos (by simpa using him)]
            rfl
          obtain ⟨mips, hgpu, hlen, ht'⟩ := unlock_upload_ok_inv (hev2 _) hpbat2 hpro h
          have hgpu0 : t.GpuStorage = some mips := hgpu
          subst ht'
          refine ⟨rfl, rfl, rfl, rfl, rfl, by simp [hgpu0], ?_, ?_, ?_⟩
          · intro j hj
            unfold gpuAt
            rw [hgpu0]
            dsimp only
            simp only [List.getD_eq_getElem?_getD, List.getElem?_set]
            rw [if_neg (fun hc => hj hc.symm)]
          · intro hemp2
            exact absurd hemp2 (by simpa using hemp)
          · intro hne
            unfold gpuAt
            dsimp only
            rw [List.getD_eq_getElem?_getD, List.getElem?_set, if_pos rfl, if_pos hlen]
            rfl

theorem mipData_congr {t1 t2 : TOpenGLTexture}
    (h : t1.EvictionParams = t2.EvictionParams) : t1.mipData = t2.mipData := by
  unfold TOpenGLTexture.mipData; rw [h]

/-- Inversion of a successful run of the restore upload loop over distinct mip
indices: eviction state and static fields are preserved, and every processed
mip with a populated shadow slot has its bytes uploaded to the GPU. -/
theorem restoreLoop_ok_inv {is : List Nat} :
    ∀ {t t' : TOpenGLTexture}, t.IsEvicted = false → is.Nodup →
      restoreLoop t is = .ok t' →
      t'.EvictionParams = t.EvictionParams ∧ t'.NumMips = t.NumMips ∧
      t'.Flags = t.Flags ∧ t'.bAliased = t.bAliased ∧ t'.TargetIs2D = t.TargetIs2D ∧
      t'.GpuStorage.isSome = t.GpuStorage.isSome ∧
      (∀ j, j ∉ is → gpuAt t' j = gpuAt t j) ∧
      (∀ j ∈ is, t.mipData.getD j [] ≠ [] → gpuAt t' j = some (t.mipData.getD j [])) := by
  induction is with
  | nil =>
    intro t t' _ _ h
    simp only [restoreLoop, Except.ok.injEq] at h
    subst h
    exact ⟨rfl, rfl, rfl, rfl, rfl, rfl, fun _ _ => rfl, by simp⟩
  | cons i rest ih =>
    intro t t' hev hnd h
    simp only [restoreLoop] at h
    split at h
    · exact absurd h (by simp)
    · rename_i ta hstep
      obtain ⟨hpar, hnum, hfl, hal, h2d, hsome, hother, hempcase, hnecase⟩ :=
        restoreMip_ok_inv hev hstep
      have hevta : ta.IsEvicted = false := by
        rw [isEvicted_congr hpar]; exact hev
      have hmdta : ta.mipData = t.mipData := mipData_congr hpar
      have hnd2 : rest.Nodup := (List.nodup_cons.mp hnd).2
      have hnin : i ∉ rest := (List.nodup_cons.mp hnd).1
      obtain ⟨ipar, inum, ifl, ial, i2d, isome, iother, inecase⟩ := ih hevta hnd2 h
      refine ⟨ipar.trans hpar, inum.trans hnum, ifl.trans hfl, ial.trans hal,
        i2d.trans h2d, isome.trans hsome, ?_, ?_⟩
      · intro j hj
        have hj1 : j ≠ i := fun hc => hj (hc ▸ List.mem_cons_self i rest)
        have hj2 : j ∉ rest := fun hc => hj (List.mem_cons_of_mem i hc)
        exact (iother j hj2).trans (hother j hj1)
      · intro j hjmem hjne
        rcases List.mem_cons.mp hjmem with hj | hj
        · subst hj
          rw [iother j hnin]
          exact hnecase hjne
        · rw [hmdta] at inecase
          exact inecase j hj hjne

theorem canBeEvictedE_ok_inv {cfg : GLConfig} {t : TOpenGLTexture} {b : Bool}
    (h : CanBeEvictedE cfg t = .ok b) :
    CanBeEvictedChecks cfg t = true ∧ b = CanBeEvicted cfg t := by
  unfold TOpenGLTexture.CanBeEvictedE at h
  split at h
  · exact absurd h (by simp)
  · rename_i hchk
    simp only [Except.ok.injEq] at h
    exact ⟨by simpa using hchk, h.symm⟩

theorem canBeEvicted_eq_data {cfg : GLConfig} {tm t : TOpenGLTexture}
    {p : FTextureEvictionParams} (hpar : tm.EvictionParams = some p)
    (hF : tm.Flags = t.Flags) (hT : tm.TargetIs2D = t.TargetIs2D)
    (hN : tm.NumMips = t.NumMips) :
    CanBeEvicted cfg tm = CanBeEvictedData cfg t p.MipImageData := by
  unfold TOpenGLTexture.CanBeEvicted CanBeEvictedData
  rw [hpar, canCreateAsEvicted_congr cfg hF hT, hN]
  simp [FTextureEvictionParams.AreAllMipsPresent, Bool.and_assoc]

theorem aliased_false_of_checks {cfg : GLConfig} {tm : TOpenGLTexture}
    (hchk : CanBeEvictedChecks cfg tm = true) (hcc : CanCreateAsEvicted cfg tm = true)
    (hlen : tm.mipData.length = tm.NumMips) : tm.bAliased = false := by
  unfold TOpenGLTexture.CanBeEvictedChecks at hchk
  simp only [hcc, hlen, Bool.not_true, Bool.false_or, Bool.and_eq_true] at hchk
  rcases hchk with ⟨-, hchk⟩
  simp only [bne_self_eq_false, Bool.and_false, Bool.or_false] at hchk
  simpa using hchk

theorem gpuAt_releaseMips (x : TOpenGLTexture) (r i : Nat) :
    gpuAt (releaseMips x r) i = gpuAt x i := rfl

/-- Inversion of a successful `RestoreEvictedGLResource`: the texture had not
been restored, its shadow array matched the mip count, GPU storage is
materialized and every populated shadow mip's bytes are uploaded; the eviction
state afterwards is the (possibly retained-tail) released shadow store, and
registration happened exactly when the texture was fully evictable and the
registry below capacity. -/
theorem restore_ok_inv {cfg : GLConfig} {lruNum lruMax : Nat} {batt : Bool}
    {t : TOpenGLTexture} {p : FTextureEvictionParams} {t' : TOpenGLTexture} {reg : Bool}
    (hp : t.EvictionParams = some p)
    (h : RestoreEvictedGLResource cfg lruNum lruMax batt t = .ok (t', reg)) :
    p.bHasRestored = false ∧
    p.MipImageData.length = t.NumMips ∧
    t'.NumMips = t.NumMips ∧ t'.Flags = t.Flags ∧ t'.bAliased = t.bAliased ∧
    t'.TargetIs2D = t.TargetIs2D ∧
    t'.GpuStorage.isSome = true ∧
    (∀ i, i < t.NumMips → p.MipImageData.getD i [] ≠ [] →
      gpuAt t' i = some (p.MipImageData.getD i [])) ∧
    (reg = true →
      CanCreateAsEvicted cfg t = true ∧ t.bAliased = false ∧
      CanBeEvictedData cfg t p.MipImageData = true ∧
      lruNum ≠ lruMax ∧ p.LRUNodeValid = false ∧
      t'.EvictionParams = some (FTextureEvictionParams.ReleaseMipData
        { MipImageData := p.MipImageData, bHasRestored := true,
          FrameLastRendered := cfg.FrameNumber, LRUNodeValid := true }
        (retainMipsOf cfg batt t))) ∧
    (reg = false →
      (lruNum = lruMax ∧
        t'.EvictionParams = some (FTextureEvictionParams.ReleaseMipData
          { MipImageData := p.MipImageData, bHasRestored := true,
            FrameLastRendered := p.FrameLastRendered, LRUNodeValid := p.LRUNodeValid } 0))
      ∨ (CanBeEvictedData cfg t p.MipImageData = false ∧
        t'.EvictionParams = some (FTextureEvictionParams.ReleaseMipData
          { MipImageData := p.MipImageData, bHasRestored := true,
            FrameLastRendered := p.FrameLastRendered, LRUNodeValid := p.LRUNodeValid }
          (retainMipsOf cfg batt t)))) := by
  unfold RestoreEvictedGLResource at h
  split at h
  · exact absurd h (by simp)
  · rename_i p0 hp0
    rw [hp] at hp0
    simp only [Option.some.injEq] at hp0
    subst hp0
    split at h
    · exact absurd h (by simp)
    · rename_i hres
      split at h
      · exact absurd h (by simp)
      · rename_i hlen0
        have hlen : p.MipImageData.length = t.NumMips := not_ne_iff.mp hlen0
        split at h
        · exact absurd h (by simp)
        · rename_i tm hloop
          have hevts := isEvicted_false_of_restored (t := { t with EvictionParams := some { p with bHasRestored := true }, GpuStorage := some (List.replicate t.NumMips none) }) rfl rfl
          have hnodup : ((List.range t.NumMips).reverse).Nodup :=
            List.nodup_reverse.mpr (List.nodup_range _)
          obtain ⟨lpar, lnum, lfl, lal, l2d, lsome, lother, lne⟩ :=
            restoreLoop_ok_inv hevts hnodup hloop
          have hparm : tm.EvictionParams = some { p with bHasRestored := true } := lpar
          have hnum : tm.NumMips = t.NumMips := lnum
          have hfl : tm.Flags = t.Flags := lfl
          have hal : tm.bAliased = t.bAliased := lal
          have h2d : tm.TargetIs2D = t.TargetIs2D := l2d
          have hsome : tm.GpuStorage.isSome = true := lsome
          have hgpu : ∀ i, i < t.NumMips → p.MipImageData.getD i [] ≠ [] →
              gpuAt tm i = some (p.MipImageData.getD i []) := by
            intro i hi hne
            exact lne i (List.mem_reverse.mpr (List.mem_range.mpr hi)) hne
          have hret : retainMipsOf cfg batt tm = retainMipsOf cfg batt t :=
            retainMipsOf_congr cfg batt hfl hnum hal
          have hmdtm : tm.mipData = p.MipImageData := by
            unfold TOpenGLTexture.mipData
            rw [hparm]
          split at h
          · exact absurd h (by simp)
          · rename_i b hbE
            obtain ⟨hchk, hbeq⟩ := canBeEvictedE_ok_inv hbE
            have hdata : CanBeEvicted cfg tm = CanBeEvictedData cfg t p.MipImageData :=
              canBeEvicted_eq_data (p := { p with bHasRestored := true }) hparm hfl h2d hnum
            split at h
            · rename_i hbt
              rw [hbeq] at hbt
              split at h
              · rename_i hqnone
                rw [hparm] at hqnone
                exact absurd hqnone (by simp)
              · rename_i q hq
                rw [hparm] at hq
                simp only [Option.some.injEq] at hq
                subst hq
                split at h
                · exact absurd h (by simp)
                · rename_i hnode
                  split at h
                  · rename_i hcap
                    simp only [Except.ok.injEq, Prod.mk.injEq] at h
                    obtain ⟨h1, h2⟩ := h
                    subst h1
                    subst h2
                    refine ⟨Bool.eq_false_iff.mpr hres, hlen, hnum, hfl, hal, h2d,
                      hsome, ?_, fun _ => ?_, by simp⟩
                    · intro i hi hne
                      rw [gpuAt_releaseMips]
                      exact hgpu i hi hne
                    · have hcc : CanCreateAsEvicted cfg tm = true := by
                        rw [hdata] at hbt
                        unfold CanBeEvictedData at hbt
                        simp only [Bool.and_eq_true] at hbt
                        rw [← canCreateAsEvicted_congr cfg hfl h2d] at hbt
                        exact hbt.1.1
                      have half : tm.bAliased = false :=
                        aliased_false_of_checks hchk hcc (by rw [hmdtm, hlen, hnum])
                      refine ⟨by rw [← canCreateAsEvicted_congr cfg hfl h2d]; exact hcc,
                        by rw [← hal]; exact half, by rw [← hdata]; exact hbt,
                        hcap, by simpa using hnode, ?_⟩
                      rw [← hret]
                      rfl
                  · rename_i hcap
                    simp only [Except.ok.injEq, Prod.mk.injEq] at h
                    obtain ⟨h1, h2⟩ := h
                    subst h1
                    subst h2
                    refine ⟨Bool.eq_false_iff.mpr hres, hlen, hnum, hfl, hal, h2d,
                      hsome, ?_, by simp, fun _ => ?_⟩
                    · intro i hi hne
                      rw [gpuAt_releaseMips]
                      exact hgpu i hi hne
                    · left
                      refine ⟨not_ne_iff.mp hcap, ?_⟩
                      simp only [TOpenGLTexture.releaseMips, hparm, Option.map_some']
            · rename_i hbf
              simp only [Except.ok.injEq, Prod.mk.injEq] at h
              obtain ⟨h1, h2⟩ := h
              subst h1
              subst h2
              refine ⟨Bool.eq_false_iff.mpr hres, hlen, hnum, hfl, hal, h2d,
                hsome, ?_, by simp, fun _ => ?_⟩
              · intro i hi hne
                rw [gpuAt_releaseMips]
                exact hgpu i hi hne
              · right
                refine ⟨?_, ?_⟩
                · rw [← hdata, ← hbeq]
                  simpa using hbf
                · rw [← hret]
                  simp only [TOpenGLTexture.releaseMips, hparm, Option.map_some']

/-! ## C3 — `CanBeEvicted` -/

/-- C3: `CanBeEvicted` is true only if the texture is eligible
(`CanCreateAsEvicted`), the shadow store holds exactly `NumMips` valid
(non-empty) slots, and — given the aliasing invariant asserted at its head
(`OpenGLTexture.cpp:1373`) and a positive mip count — the texture is not an
alias of another texture's storage. -/
theorem C3_canBeEvicted_only_if (cfg : GLConfig) (t : TOpenGLTexture)
    (hchk : CanBeEvictedChecks cfg t = true) (hn : 0 < t.NumMips)
    (h : CanBeEvicted cfg t = true) :
    CanCreateAsEvicted cfg t = true ∧
    t.mipData.length = t.NumMips ∧
    (∀ b ∈ t.mipData, b ≠ []) ∧
    t.bAliased = false := by
  unfold TOpenGLTexture.CanBeEvicted at h
  cases hq : t.EvictionParams with
  | none => rw [hq] at h; simp at h
  | some p =>
    rw [hq] at h
    simp only [Bool.and_eq_true, beq_iff_eq] at h
    obtain ⟨hcc, hlen, hallb⟩ := h
    have hmd : t.mipData = p.MipImageData := by
      unfold TOpenGLTexture.mipData; rw [hq]
    have hlen2 : t.mipData.length = t.NumMips := by rw [hmd]; exact hlen
    refine ⟨hcc, hlen2, ?_, aliased_false_of_checks hchk hcc hlen2⟩
    intro b hb
    have := (List.all_eq_true.mp hallb) b (by rwa [hmd] at hb)
    simpa using this

/-- Witness for C3 at the concrete resident registry member `texResident`. -/
theorem C3_canBeEvicted_only_if_w :
    CanCreateAsEvicted cfgDefault texResident = true ∧
    texResident.bAliased = false := by
  have h := C3_canBeEvicted_only_if cfgDefault texResident (by decide) (by decide) (by decide)
  exact ⟨h.1, h.2.2.2⟩

/-! ## The eviction step, and restore-after-restore faults -/

theorem tryEvict_eq_body (cfg : GLConfig) (t : TOpenGLTexture)
    (q : FTextureEvictionParams) (hq : t.EvictionParams = some q) :
    TryEvictGLResource cfg t =
      (if CanCreateAsEvicted cfg t && q.bHasRestored then
        match CanBeEvictedE cfg t with
        | .error e => .error e
        | .ok b =>
          if b then
            .ok { t with GpuStorage := none
                         EvictionParams := some { q with bHasRestored := false } }
          else .ok t
      else .ok t) := by
  unfold TryEvictGLResource
  rw [hq]

theorem evictViaLRU_eq (cfg : GLConfig) (t : TOpenGLTexture)
    (q : FTextureEvictionParams) (hq : t.EvictionParams = some q) :
    EvictViaLRU cfg t =
      TryEvictGLResource cfg
        { t with EvictionParams := some { q with LRUNodeValid := false } } := by
  unfold EvictViaLRU
  rw [hq]

theorem restore_restored_error {cfg : GLConfig} {a b : Nat} {c : Bool}
    {t : TOpenGLTexture} {q : FTextureEvictionParams}
    (hq : t.EvictionParams = some q) (hr : q.bHasRestored = true) :
    RestoreEvictedGLResource cfg a b c t = .error .checkFailed := by
  unfold RestoreEvictedGLResource
  rw [hq]
  simp [hr]

theorem canBeEvicted_false_of_empty {cfg : GLConfig} {t : TOpenGLTexture}
    {q : FTextureEvictionParams} (hq : t.EvictionParams = some q)
    (hmd : q.MipImageData = []) (hn : 0 < t.NumMips) :
    CanBeEvicted cfg t = false := by
  unfold TOpenGLTexture.CanBeEvicted
  rw [hq]
  have : (q.MipImageData.length == t.NumMips) = false := by
    simp [hmd]
    omega
  simp [this]

theorem canBeEvictedChecks_of_empty {cfg : GLConfig} {t : TOpenGLTexture}
    {q : FTextureEvictionParams} (hq : t.EvictionParams = some q)
    (hmd : q.MipImageData = []) (hn : 0 < t.NumMips) :
    CanBeEvictedChecks cfg t = true := by
  unfold TOpenGLTexture.CanBeEvictedChecks
  have hmdt : t.mipData = [] := by
    unfold TOpenGLTexture.mipData
    rw [hq]
    simp [hmd]
  rw [hq, hmdt]
  have : (0 != t.NumMips) = true := by
    simp
    omega
  simp [this]

/-- `TryEvictGLResource` is a no-op on a texture whose shadow store has been
emptied: it can never be evicted again. -/
theorem tryEvict_ok_self_of_empty {cfg : GLConfig} {t : TOpenGLTexture}
    {q : FTextureEvictionParams} (hq : t.EvictionParams = some q)
    (hmd : q.MipImageData = []) (hn : 0 < t.NumMips) :
    TryEvictGLResource cfg t = .ok t := by
  rw [tryEvict_eq_body cfg t q hq]
  by_cases hc : (CanCreateAsEvicted cfg t && q.bHasRestored) = true
  · rw [if_pos hc]
    have hE : CanBeEvictedE cfg t = .ok false := by
      unfold TOpenGLTexture.CanBeEvictedE
      rw [canBeEvictedChecks_of_empty hq hmd hn, canBeEvicted_false_of_empty hq hmd hn]
      simp
    rw [hE]
    rfl
  · rw [if_neg hc]

/-- `TryEvictGLResource` is a no-op on a non-eligible texture. -/
theorem tryEvict_ok_self_of_not_eligible {cfg : GLConfig} {t : TOpenGLTexture}
    {q : FTextureEvictionParams} (hq : t.EvictionParams = some q)
    (hcc : CanCreateAsEvicted cfg t = false) :
    TryEvictGLResource cfg t = .ok t := by
  rw [tryEvict_eq_body cfg t q hq]
  rw [if_neg (by simp [hcc])]

/-- `TryEvictGLResource` on an eligible, restored, fully evictable texture
destroys the GPU storage and clears the restored flag. -/
theorem tryEvict_evicts {cfg : GLConfig} {t : TOpenGLTexture}
    {q : FTextureEvictionParams} (hq : t.EvictionParams = some q)
    (hcc : CanCreateAsEvicted cfg t = true) (hr : q.bHasRestored = true)
    (hchk : CanBeEvictedChecks cfg t = true) (hbe : CanBeEvicted cfg t = true) :
    TryEvictGLResource cfg t =
      .ok { t with GpuStorage := none
                   EvictionParams := some { q with bHasRestored := false } } := by
  rw [tryEvict_eq_body cfg t q hq]
  rw [if_pos (by simp [hcc, hr])]
  have hE : CanBeEvictedE cfg t = .ok true := by
    unfold TOpenGLTexture.CanBeEvictedE
    rw [hchk, hbe]
    simp
  rw [hE]
  rfl

/-! ## C5 — the full-residency registration invariant -/

/-- C5 counterexample: a reachable state — create a 2-mip texture as evicted
with both mips populated, then restore it under `keepLowerMipCount = 1` —
in which the texture is a registry member (`lruHandle` valid) and
materialized, but NOT all of its shadow mip slots are populated: the restore
released mip 0 after registering. -/
theorem C5_full_residency_invariant_false :
    partialResidencyRun.map (fun r => r.1.EvictionParams.map (fun q =>
      (q.LRUNodeValid, q.bHasRestored, q.AreAllMipsPresent)))
      = .ok (some (true, true, false)) := by
  decide

/-- C5 (amended): the invariant holds AT REGISTRATION TIME — a restore
registers the texture only if its shadow store was fully resident and the
texture materialized, and immediately after the restore the registered
texture still has `bHasRestored` and a valid LRU node — but it is not
preserved afterwards: the same restore may release shadow mips of the
still-registered texture down to the retained tail. -/
theorem C5_registration_implies_residency (cfg : GLConfig) (lruNum lruMax : Nat)
    (batt : Bool) (t : TOpenGLTexture) (p : FTextureEvictionParams) (t' : TOpenGLTexture)
    (hp : t.EvictionParams = some p)
    (h : RestoreEvictedGLResource cfg lruNum lruMax batt t = .ok (t', true)) :
    p.MipImageData.length = t.NumMips ∧
    (∀ b ∈ p.MipImageData, b ≠ []) ∧
    (∀ q, t'.EvictionParams = some q → q.bHasRestored = true ∧ q.LRUNodeValid = true) := by
  obtain ⟨-, hlen, -, -, -, -, -, -, hregs, -⟩ := restore_ok_inv hp h
  obtain ⟨-, -, hdata, -, -, hparams⟩ := hregs rfl
  refine ⟨hlen, ?_, ?_⟩
  · unfold CanBeEvictedData at hdata
    simp only [Bool.and_eq_true, List.all_eq_true] at hdata
    intro b hb
    have := hdata.2 b hb
    simpa using this
  · intro q hq
    rw [hparams] at hq
    simp only [Option.some.injEq] at hq
    subst hq
    exact ⟨FTextureEvictionParams.releaseMipData_bHasRestored _ _,
      FTextureEvictionParams.releaseMipData_LRUNodeValid _ _⟩

/-- Witness for the amended C5 at the concrete partial-retention restore. -/
theorem C5_registration_implies_residency_w :
    pTwoMips.MipImageData.length = texTwoMips.NumMips ∧
    (∀ q, partialRestored.1.EvictionParams = some q → q.LRUNodeValid = true) := by
  have h : RestoreEvictedGLResource cfgKeep1 0 10 true texTwoMips
      = .ok (partialRestored.1, true) := by decide
  have hc := C5_registration_implies_residency cfgKeep1 0 10 true texTwoMips pTwoMips
    partialRestored.1 (by decide) h
  exact ⟨hc.1, fun q hq => (hc.2.2 q hq).2⟩

/-! ## C6 — registry capacity failure -/

/-- C6: when a fully evictable texture's registration during restore fails
because the registry is at capacity, the restore drops the entire shadow
store, and any later eviction attempt on the texture is a no-op that keeps
its (materialized) GPU storage. -/
theorem C6_registry_full_never_evictable (cfg : GLConfig) (lruMax : Nat) (batt : Bool)
    (t : TOpenGLTexture) (p : FTextureEvictionParams) (t' : TOpenGLTexture) (reg : Bool)
    (hp : t.EvictionParams = some p) (hn : 0 < t.NumMips)
    (hcbe : CanBeEvictedData cfg t p.MipImageData = true)
    (h : RestoreEvictedGLResource cfg lruMax lruMax batt t = .ok (t', reg)) :
    reg = false ∧
    (∀ q, t'.EvictionParams = some q → q.MipImageData = []) ∧
    TryEvictGLResource cfg t' = .ok t' ∧
    t'.GpuStorage.isSome = true := by
  obtain ⟨-, -, hnum, -, -, -, hsome, -, hregt, hregf⟩ := restore_ok_inv hp h
  cases reg with
  | true =>
    obtain ⟨-, -, -, hcap, -, -⟩ := hregt rfl
    exact absurd rfl hcap
  | false =>
    rcases hregf rfl with ⟨-, hparams⟩ | ⟨hfalse, -⟩
    · have hq0 : ∀ q, t'.EvictionParams = some q → q.MipImageData = [] := by
        intro q hq
        rw [hparams] at hq
        simp only [Option.some.injEq] at hq
        subst hq
        exact FTextureEvictionParams.releaseMipData_zero _
      refine ⟨rfl, hq0, ?_, hsome⟩
      exact tryEvict_ok_self_of_empty hparams (hq0 _ hparams) (by omega)
    · rw [hfalse] at hcbe
      exact absurd hcbe (by simp)

/-- Witness for C6 at a concrete restore against a full registry. -/
theorem C6_registry_full_never_evictable_w :
    capFailRes.2 = false ∧
    TryEvictGLResource cfgKeepAll capFailRes.1 = .ok capFailRes.1 := by
  have h : RestoreEvictedGLResource cfgKeepAll 5 5 true texTwoMips
      = .ok (capFailRes.1, capFailRes.2) := by decide
  have hc := C6_registry_full_never_evictable cfgKeepAll 5 true texTwoMips pTwoMips
    capFailRes.1 capFailRes.2 (by decide) (by decide) (by decide) h
  exact ⟨hc.1, hc.2.2.1⟩

/-! ## C1 — the restore–evict–restore round trip -/

theorem releaseMipData_ge {q : FTextureEvictionParams} {r : Nat} (h0 : r ≠ 0)
    (hge : q.MipImageData.length ≤ r) :
    (q.ReleaseMipData r).MipImageData = q.MipImageData := by
  apply List.ext_getElem (q.releaseMipData_length h0)
  intro i h1 h2
  have hgd := q.releaseMipData_getD h0 i
  rw [if_neg (by omega)] at hgd
  rw [List.getD_eq_getElem?_getD, List.getD_eq_getElem?_getD,
    List.getElem?_eq_getElem h1, List.getElem?_eq_getElem h2] at hgd
  simpa using hgd

theorem retainMipsOf_ne_zero {cfg : GLConfig} {b : Bool} {t : TOpenGLTexture}
    (h : retainMipsOf cfg b t ≠ 0) : retainMipsOf cfg b t = keepEff cfg := by
  unfold retainMipsOf at h ⊢
  split at h
  · rename_i hC
    rw [if_pos hC]
  · exact absurd rfl h

theorem canBeEvictedChecks_of_not_aliased {cfg : GLConfig} {t : TOpenGLTexture}
    {q : FTextureEvictionParams} (hq : t.EvictionParams = some q)
    (hal : t.bAliased = false) : CanBeEvictedChecks cfg t = true := by
  unfold TOpenGLTexture.CanBeEvictedChecks
  simp [hq, hal]

/-- If a texture comes out of a restore with an emptied shadow store, the
LRU eviction step leaves it restored, so a further restore faults on the
double-restore check. -/
theorem evict_restore_fails_of_empty {cfg : GLConfig} {lruNum lruMax : Nat}
    {t1 : TOpenGLTexture} {q1 : FTextureEvictionParams}
    (hq : t1.EvictionParams = some q1) (hmd : q1.MipImageData = [])
    (hr : q1.bHasRestored = true) (hn : 0 < t1.NumMips)
    {t2 : TOpenGLTexture} (hev : EvictViaLRU cfg t1 = .ok t2) :
    RestoreEvictedGLResource cfg lruNum lruMax true t2 = .error .checkFailed := by
  rw [evictViaLRU_eq cfg t1 q1 hq] at hev
  rw [tryEvict_ok_self_of_empty
    (t := { t1 with EvictionParams := some { q1 with LRUNodeValid := false } })
    (q := { q1 with LRUNodeValid := false }) rfl hmd hn] at hev
  simp only [Except.ok.injEq] at hev
  subst hev
  exact restore_restored_error rfl hr

/-- If a texture is not eligible for eviction, the LRU eviction step is a
no-op, so a further restore of the still-restored texture faults. -/
theorem evict_restore_fails_of_not_eligible {cfg : GLConfig} {lruNum lruMax : Nat}
    {t1 : TOpenGLTexture} {q1 : FTextureEvictionParams}
    (hq : t1.EvictionParams = some q1) (hcc : CanCreateAsEvicted cfg t1 = false)
    (hr : q1.bHasRestored = true)
    {t2 : TOpenGLTexture} (hev : EvictViaLRU cfg t1 = .ok t2) :
    RestoreEvictedGLResource cfg lruNum lruMax true t2 = .error .checkFailed := by
  rw [evictViaLRU_eq cfg t1 q1 hq] at hev
  have hcc2 : CanCreateAsEvicted cfg
      { t1 with EvictionParams := some { q1 with LRUNodeValid := false } } = false :=
    (canCreateAsEvicted_congr cfg rfl rfl).trans hcc
  rw [tryEvict_ok_self_of_not_eligible
    (t := { t1 with EvictionParams := some { q1 with LRUNodeValid := false } })
    (q := { q1 with LRUNodeValid := false }) rfl hcc2] at hev
  simp only [Except.ok.injEq] at hev
  subst hev
  exact restore_restored_error rfl hr

/-- C1: for every texture created as evicted with all mips populated and with
full shadow retention (`keepLowerMipCount ≥ mip count`), the byte content of
every GPU mip after a restore–evict–restore sequence equals the bytes written
into the shadow store before the first eviction. -/
theorem C1_restore_evict_restore_round_trip (cfg : GLConfig) (lruNum lruMax : Nat)
    (t : TOpenGLTexture) (p : FTextureEvictionParams) (t' : TOpenGLTexture)
    (hp : t.EvictionParams = some p)
    (hall : ∀ b ∈ p.MipImageData, b ≠ [])
    (hn : 0 < t.NumMips)
    (hkeep : t.NumMips ≤ keepEff cfg)
    (h : RestoreEvictRestore cfg lruNum lruMax t = .ok t') :
    ∀ i, i < t.NumMips → gpuAt t' i = some (p.MipImageData.getD i []) := by
  unfold RestoreEvictRestore at h
  split at h
  · exact absurd h (by simp)
  · rename_i r1 hr1
    obtain ⟨t1, reg1⟩ := r1
    dsimp only at h
    split at h
    · exact absurd h (by simp)
    · rename_i t2 hev2
      split at h
      · exact absurd h (by simp)
      · rename_i r3 hr3
        obtain ⟨t3, reg3⟩ := r3
        dsimp only at h hr3
        simp only [Except.ok.injEq] at h
        subst h
        obtain ⟨hres0, hlen, hnum1, hfl1, hal1, h2d1, hsome1, hgpu1, hregt, hregf⟩ :=
          restore_ok_inv hp hr1
        by_cases hr0 : retainMipsOf cfg true t = 0
        · -- the retained tail is empty: the sequence cannot complete
          exfalso
          cases hreg : reg1 with
          | true =>
            obtain ⟨-, -, -, -, -, hparams1⟩ := hregt hreg
            rw [hr0] at hparams1
            have := @evict_restore_fails_of_empty _ lruNum lruMax _ _
              hparams1 (FTextureEvictionParams.releaseMipData_zero _)
              (FTextureEvictionParams.releaseMipData_bHasRestored _ _)
              (by rw [hnum1]; exact hn) _ hev2
            rw [this] at hr3
            exact absurd hr3 (by simp)
          | false =>
            rcases hregf hreg with ⟨-, hparams1⟩ | ⟨-, hparams1⟩
            · have := @evict_restore_fails_of_empty _ lruNum lruMax _ _
                hparams1 (FTextureEvictionParams.releaseMipData_zero _)
                (FTextureEvictionParams.releaseMipData_bHasRestored _ _)
                (by rw [hnum1]; exact hn) _ hev2
              rw [this] at hr3
              exact absurd hr3 (by simp)
            · rw [hr0] at hparams1
              have := @evict_restore_fails_of_empty _ lruNum lruMax _ _
                hparams1 (FTextureEvictionParams.releaseMipData_zero _)
                (FTextureEvictionParams.releaseMipData_bHasRestored _ _)
                (by rw [hnum1]; exact hn) _ hev2
              rw [this] at hr3
              exact absurd hr3 (by simp)
        · -- full retention: retain = keepEff ≥ mip count, nothing is freed
          have hge0 : p.MipImageData.length ≤ retainMipsOf cfg true t := by
            rw [retainMipsOf_ne_zero hr0, hlen]
            exact hkeep
          cases hreg : reg1 with
          | false =>
            -- registration did not happen: either capacity (empty store,
            -- handled above since that branch releases with 0) or not evictable
            exfalso
            rcases hregf hreg with ⟨-, hparams1⟩ | ⟨hdataF, hparams1⟩
            · have := @evict_restore_fails_of_empty _ lruNum lruMax _ _
                hparams1 (FTextureEvictionParams.releaseMipData_zero _)
                (FTextureEvictionParams.releaseMipData_bHasRestored _ _)
                (by rw [hnum1]; exact hn) _ hev2
              rw [this] at hr3
              exact absurd hr3 (by simp)
            · -- CanBeEvictedData is false; with the length and residency
              -- hypotheses this forces CanCreateAsEvicted to be false
              have hccF : CanCreateAsEvicted cfg t = false := by
                unfold CanBeEvictedData at hdataF
                have hlenb : (p.MipImageData.length == t.NumMips) = true := by
                  simp [hlen]
                have hallb : (p.MipImageData.all fun b => !b.isEmpty) = true := by
                  rw [List.all_eq_true]
                  intro b hb
                  simpa using hall b hb
                rw [hlenb, hallb] at hdataF
                simpa using hdataF
              have hcc1 : CanCreateAsEvicted cfg t1 = false :=
                (canCreateAsEvicted_congr cfg hfl1 h2d1).trans hccF
              have := @evict_restore_fails_of_not_eligible _ lruNum lruMax _ _
                hparams1 hcc1
                (FTextureEvictionParams.releaseMipData_bHasRestored _ _) _ hev2
              rw [this] at hr3
              exact absurd hr3 (by simp)
          | true =>
            obtain ⟨hccT, halF, hdataT, -, -, hparams1⟩ := hregt hreg
            set Q1 := FTextureEvictionParams.ReleaseMipData
              { MipImageData := p.MipImageData, bHasRestored := true,
                FrameLastRendered := cfg.FrameNumber, LRUNodeValid := true }
              (retainMipsOf cfg true t) with hQ1
            have hfull : Q1.MipImageData = p.MipImageData := by
              rw [hQ1]
              exact releaseMipData_ge hr0 hge0
            have hq1r : Q1.bHasRestored = true := by
              rw [hQ1]
              exact FTextureEvictionParams.releaseMipData_bHasRestored _ _
            -- the eviction step: the texture is eligible, restored, and evictable
            rw [evictViaLRU_eq cfg t1 Q1 hparams1] at hev2
            set q1c : FTextureEvictionParams := { Q1 with LRUNodeValid := false } with hq1c
            set t1c : TOpenGLTexture := { t1 with EvictionParams := some q1c } with ht1c
            have hq1cp : t1c.EvictionParams = some q1c := rfl
            have hcc1 : CanCreateAsEvicted cfg t1c = true := by
              refine ((canCreateAsEvicted_congr cfg rfl rfl).trans ?_)
              exact (canCreateAsEvicted_congr cfg hfl1 h2d1).trans hccT
            have hchk1 : CanBeEvictedChecks cfg t1c = true :=
              canBeEvictedChecks_of_not_aliased hq1cp
                (show t1.bAliased = false from hal1.trans halF)
            have hbe1 : CanBeEvicted cfg t1c = true := by
              rw [canBeEvicted_eq_data hq1cp hfl1 h2d1 hnum1]
              have hmdeq : q1c.MipImageData = p.MipImageData := by
                rw [hq1c]
                exact hfull
              rw [hmdeq]
              exact hdataT
            have hq1cr : q1c.bHasRestored = true := by
              rw [hq1c]
              exact hq1r
            rw [tryEvict_evicts hq1cp hcc1 hq1cr hchk1 hbe1] at hev2
            simp only [Except.ok.injEq] at hev2
            -- the second restore
            set q2c : FTextureEvictionParams := { q1c with bHasRestored := false } with hq2c
            set t2v : TOpenGLTexture := { t1c with GpuStorage := none, EvictionParams := some q2c } with ht2v
            rw [← hev2] at hr3
            have hp2 : t2v.EvictionParams = some q2c := rfl
            obtain ⟨-, -, hnum3, -, -, -, -, hgpu3, -, -⟩ := restore_ok_inv hp2 hr3
            intro i hi
            have hmdeq2 : q2c.MipImageData = p.MipImageData := by
              rw [hq2c, hq1c]
              exact hfull
            have hi2 : i < t2v.NumMips := by
              show i < t1.NumMips
              rw [hnum1]
              exact hi
            have hres := hgpu3 i hi2
            rw [hmdeq2] at hres
            refine hres (hall _ ?_)
            rw [List.getD_eq_getElem?_getD,
              List.getElem?_eq_getElem (by rw [hlen]; exact hi)]
            exact List.getElem_mem _

/-- C1 witness: the round-trip law instantiated on the concrete two-mip
fixture `texTwoMips` under full retention (`KeepLowerMipCount = 16`): after
restore–evict–restore, the GPU storage of both mips holds exactly the bytes
originally written into the shadow store. -/
theorem C1_restore_evict_restore_round_trip_w :
    gpuAt texRoundTrip 0 = some [some 1, some 2, some 3, some 4] ∧
    gpuAt texRoundTrip 1 = some [some 5] :=
  ⟨C1_restore_evict_restore_round_trip cfgKeepAll 0 10 texTwoMips pTwoMips texRoundTrip
      rfl (by decide) (by decide) (by decide) (by decide) 0 (by decide),
   C1_restore_evict_restore_round_trip cfgKeepAll 0 10 texTwoMips pTwoMips texRoundTrip
      rfl (by decide) (by decide) (by decide) (by decide) 1 (by decide)⟩

end GLTex
